import Mathlib

/-!
# Verification of the peepdf-3 interactive console (`peepdf/PDFConsole.py`)

This file gives a shallow embedding, in Lean 4, of the parts of
`peepdf/PDFConsole.py` that the specification's claims are about, and proves
or refutes each claim against that embedding.

Conventions of the embedding:
* Python byte strings and text strings are both modelled as Lean `String`
  (each `Char` standing for one byte), except where the `str`/`bytes`
  distinction is itself load-bearing (the `replace` command), where a
  dedicated value type keeps the two apart.
* Side-effecting collaborators that live outside `PDFConsole.py`
  (the filter codecs of `PDFFilters`, the file system, `getBytesFromFile`)
  are passed in as explicit oracle functions, so the theorems hold for every
  behaviour of those collaborators.
* Interactive `input()` calls are modelled by an explicit list of input
  strings; running off the end of the list models `EOFError` (a crash).
* Python functions that can raise are modelled with an explicit crash
  outcome rather than by an `Option` silently absorbing the exception.
-/

namespace Peepdf

/-! ## Python string primitives -/

/-- Python `str.isdigit()` restricted to ASCII: non-empty and all chars `0`-`9`. -/
def pyIsDigit (s : String) : Bool :=
  !s.isEmpty && s.toList.all Char.isDigit

/-- Value of a decimal digit string, as computed by Python `int(s)` on a
string that satisfies `isdigit`. -/
def pyToNat (s : String) : Nat :=
  s.toList.foldl (fun a c => a * 10 + (c.toNat - 48)) 0

/-- Python `str.lower()` restricted to ASCII letters. -/
def pyLower (s : String) : String :=
  String.mk (s.toList.map Char.toLower)

/-! ## The filter-name dictionary (`PDFConsole.py` lines 94-111) -/

/-- `filter2RealFilterDict` (module-level constant of `PDFConsole.py`). -/
def filter2RealFilterDict : List (String × String) :=
  [("b64", "base64"),
   ("base64", "base64"),
   ("asciihex", "/ASCIIHexDecode"),
   ("ahx", "/ASCIIHexDecode"),
   ("ascii85", "/ASCII85Decode"),
   ("a85", "/ASCII85Decode"),
   ("lzw", "/LZWDecode"),
   ("flatedecode", "/FlateDecode"),
   ("fl", "/FlateDecode"),
   ("runlength", "/RunLengthDecode"),
   ("rl", "/RunLengthDecode"),
   ("ccittfax", "/CCITTFaxDecode"),
   ("ccf", "/CCITTFaxDecode"),
   ("jbig2", "/JBIG2Decode"),
   ("dct", "/DCTDecode"),
   ("jpx", "/JPXDecode")]

/-- The keys of `filter2RealFilterDict`, in insertion order. -/
def filterDictKeys : List String := filter2RealFilterDict.map Prod.fst

/-- Dictionary lookup `filter2RealFilterDict[f]`; total because every use in
the source is guarded by a membership test on the keys. -/
def realFilterOf (f : String) : String :=
  match filter2RealFilterDict.find? (fun p => p.1 = f) with
  | some p => p.2
  | none => ""

/-- The `notImplementedFilters` list of `do_decode` (line 464).  The source
reads `["ccittfax" "ccf", "jbig2", "dct", "jpx"]`: the missing comma makes
Python concatenate the two adjacent string literals, so the first element is
the single string `"ccittfaxccf"`. -/
def notImplementedFiltersDecode : List String :=
  ["ccittfax" ++ "ccf", "jbig2", "dct", "jpx"]

/-- The `notImplementedFilters` list of `do_encode` (lines 954-964). -/
def notImplementedFiltersEncode : List String :=
  ["ascii85", "a85", "runlength", "rl", "jbig2", "jpx", "ccittfax", "ccf", "dct"]

/-- The `notImplementedFilters` list of `do_filters` (lines 1353-1363). -/
def notImplementedFiltersSet : List String :=
  ["ascii85", "a85", "runlength", "rl", "jbig2", "jpx", "ccittfax", "ccf", "dct"]

/-! ## The `decode` and `encode` commands (`do_decode`, `do_encode`) -/

/-- Collaborators of `do_decode`/`do_encode` that live outside
`PDFConsole.py`, passed as oracles.  `decodeStream`/`encodeStream` return a
pair whose first component is `-1` on failure, as in `PDFFilters`;
`b64decode` returns the raised exception's text on failure. -/
structure CodecEnv where
  b64decode : String → Except String String
  b64encode : String → String
  decodeStream : String → String → Int × String
  encodeStream : String → String → Int × String
  getBytesFromFile : String → Nat → Nat → Int × String
  fileExists : String → Bool
  readFile : String → String

/-- Observable result of one console command invocation. -/
inductive CmdOut where
  /-- `parseArgs` failed (or returned an empty list where the command treats
  that as a failure): the parse-failure message is logged and help shown. -/
  | parseErr
  /-- The command printed its help text and returned. -/
  | help
  /-- `log_output` was called with a (possibly error) text message. -/
  | message (s : String)
  /-- `log_output` was called with decoded/encoded bytes (`bytesOutput=True`). -/
  | output (s : String)
  deriving DecidableEq, Repr

/-- The filter-argument validation loop shared in shape by `do_decode`
(lines 497-506) and `do_encode` (lines 997-1006): each argument is
lower-cased, rejected via help if it is not a known filter key, rejected
with `mkMsg` if it is in `notImpl`, and collected otherwise. -/
def validateFilterArgs (notImpl : List String) (mkMsg : String → String) :
    List String → List String → Except CmdOut (List String)
  | [], acc => .ok acc
  | a :: rest, acc =>
    let fileFilter := pyLower a
    if fileFilter ∉ filterDictKeys then
      .error .help
    else if fileFilter ∈ notImpl then
      .error (.message (mkMsg fileFilter))
    else
      validateFilterArgs notImpl mkMsg rest (acc ++ [fileFilter])

/-- The decoding loop of `do_decode` (lines 538-553): filters are applied
sequentially in list order, each step feeding the next; the first failing
step aborts with its error message. -/
def applyDecodeChain (env : CodecEnv) : List String → String → Except String String
  | [], content => .ok content
  | fileFilter :: rest, content =>
    let realFilter := realFilterOf fileFilter
    if realFilter = "base64" then
      match env.b64decode content with
      | .error e => .error ("[!] Error: " ++ e)
      | .ok content' => applyDecodeChain env rest content'
    else
      let ret := env.decodeStream content realFilter
      if ret.1 = -1 then .error ("[!] Error: " ++ ret.2)
      else applyDecodeChain env rest ret.2

/-- The encoding loop of `do_encode` (lines 1038-1048). -/
def applyEncodeChain (env : CodecEnv) : List String → String → Except String String
  | [], content => .ok content
  | fileFilter :: rest, content =>
    let realFilter := realFilterOf fileFilter
    if realFilter = "base64" then
      applyEncodeChain env rest (env.b64encode content)
    else
      let ret := env.encodeStream content realFilter
      if ret.1 = -1 then .error ("[!] Error: " ++ ret.2)
      else applyEncodeChain env rest ret.2

/-- Source types accepted by `decode`/`encode`. -/
def codecValidTypes : List String := ["variable", "file", "raw", "string"]

/-- Shallow embedding of `do_decode` (lines 458-556).  `pdfFile` carries the
open document's path (`None` when no file is open); `consoleVars` maps console
variable names to their current string contents; `args` is `none` when
`parseArgs` failed. -/
def doDecode (env : CodecEnv) (pdfFile : Option String)
    (consoleVars : List (String × String)) (args : Option (List String)) : CmdOut :=
  match args with
  | none => .parseErr
  | some args =>
    if args.isEmpty then .parseErr
    else if args.length > 2 then
      let srcType := args.headD ""
      if srcType ∉ codecValidTypes then .help
      else
        -- resolve src/offset/size and the index where filters begin
        let step : Except CmdOut (Nat × String × Nat × Nat) :=
          if srcType ∈ ["variable", "file", "string"] then
            .ok (2, args.getD 1 "", 0, 0)
          else
            match pdfFile with
            | none => .error (.message "[!] Error: You must open a file")
            | some _ =>
              if args.length < 3 then .error .help
              else
                let offset := args.getD 1 ""
                let size := args.getD 2 ""
                if !pyIsDigit offset || !pyIsDigit size then
                  .error (.message "[!] Error: \"offset\" and \"num_bytes\" must be integers")
                else .ok (3, "", pyToNat offset, pyToNat size)
        match step with
        | .error out => out
        | .ok (iniFilterArgs, src, offset, size) =>
          match validateFilterArgs notImplementedFiltersDecode
              (fun f => "[!] Error: Filter " ++ f ++ " not implemented yet!")
              (args.drop iniFilterArgs) [] with
          | .error out => out
          | .ok filters =>
            let contentRes : Except CmdOut String :=
              if srcType = "variable" then
                match consoleVars.find? (fun p => p.1 = src) with
                | none => .error (.message "[!] Error: The variable does not exist")
                | some p => .ok p.2
              else if srcType = "file" then
                if !env.fileExists src then
                  .error (.message "[!] Error: The file does not exist")
                else .ok (env.readFile src)
              else if srcType = "string" then .ok src
              else
                let ret := env.getBytesFromFile (pdfFile.getD "") offset size
                if ret.1 = -1 then .error (.message "[!] Error: The file does not exist")
                else .ok ret.2
            match contentRes with
            | .error out => out
            | .ok content =>
              if content = "" then .message "[!] Error: The content is empty"
              else
                match applyDecodeChain env filters content with
                | .error msg => .message msg
                | .ok decoded => .output decoded
    else .help

/-- Shallow embedding of `do_encode` (lines 948-1051).  Note lines 995-996:
after validating that `args[1]` and `args[2]` are both digit strings, the
source assigns `offset = int(args[1])` and then `size = int(args[1])` as
well, so both arguments of `getBytesFromFile` come from `args[1]`. -/
def doEncode (env : CodecEnv) (pdfFile : Option String)
    (consoleVars : List (String × String)) (args : Option (List String)) : CmdOut :=
  match args with
  | none => .parseErr
  | some args =>
    if args.isEmpty then .parseErr
    else if args.length > 2 then
      let srcType := args.headD ""
      if srcType ∉ codecValidTypes then .help
      else
        let step : Except CmdOut (Nat × String × Nat × Nat) :=
          if srcType ∈ ["variable", "file", "string"] then
            .ok (2, args.getD 1 "", 0, 0)
          else
            match pdfFile with
            | none => .error (.message "[!] Error: You must open a file")
            | some _ =>
              if args.length < 3 then .error .help
              else
                let offset := args.getD 1 ""
                let size := args.getD 2 ""
                if !pyIsDigit offset || !pyIsDigit size then
                  .error (.message "[!] Error: \"offset\" and \"num_bytes\" must be integers")
                else .ok (3, "", pyToNat (args.getD 1 ""), pyToNat (args.getD 1 ""))
        match step with
        | .error out => out
        | .ok (iniFilterArgs, src, offset, size) =>
          match validateFilterArgs notImplementedFiltersEncode
              (fun f => "[!] Error: Filter \"" ++ f ++ "\" not implemented yet")
              (args.drop iniFilterArgs) [] with
          | .error out => out
          | .ok filters =>
            let contentRes : Except CmdOut String :=
              if srcType = "variable" then
                match consoleVars.find? (fun p => p.1 = src) with
                | none => .error (.message "[!] Error: The variable does not exist")
                | some p => .ok p.2
              else if srcType = "file" then
                if !env.fileExists src then
                  .error (.message "[!] Error: The file does not exist")
                else .ok (env.readFile src)
              else if srcType = "string" then .ok src
              else
                let ret := env.getBytesFromFile (pdfFile.getD "") offset size
                if ret.1 = -1 then .error (.message "[!] Error: The file does not exist")
                else .ok ret.2
            match contentRes with
            | .error out => out
            | .ok content =>
              if content = "" then .message "[!] Error: The content is empty"
              else
                match applyEncodeChain env filters content with
                | .error msg => .message msg
                | .ok encoded => .output encoded
    else .help

/-- A concrete codec oracle used to evaluate the commands on closed inputs:
every codec step succeeds and records which real filter ran. -/
def traceEnv : CodecEnv where
  b64decode := fun s => .ok ("b64dec:" ++ s)
  b64encode := fun s => "b64enc:" ++ s
  decodeStream := fun content realFilter => (0, realFilter ++ ":" ++ content)
  encodeStream := fun content realFilter => (0, realFilter ++ ":" ++ content)
  getBytesFromFile := fun _ offset size => (0, "R" ++ toString offset ++ "," ++ toString size)
  fileExists := fun _ => false
  readFile := fun _ => ""

/-! ## Claim C1: unsupported filters in `decode` -/

/-- C1 counterexample: `decode string AAAA ccittfax` (and likewise `ccf`)
does NOT report the filter as not implemented; it reaches the decoding loop
and calls `decodeStream` with `/CCITTFaxDecode` (here observed through the
tracing oracle), while `jbig2`, `dct` and `jpx` are reported as not
implemented.  The fax aliases slip through because the missing comma in
`notImplementedFilters` (line 464) merges them into the dead string
`"ccittfaxccf"`. -/
theorem decode_ccittfax_is_attempted :
    doDecode traceEnv none [] (some ["string", "AAAA", "ccittfax"]) =
      .output "/CCITTFaxDecode:AAAA" ∧
    doDecode traceEnv none [] (some ["string", "AAAA", "ccf"]) =
      .output "/CCITTFaxDecode:AAAA" ∧
    doDecode traceEnv none [] (some ["string", "AAAA", "jbig2"]) =
      .message "[!] Error: Filter jbig2 not implemented yet!" ∧
    doDecode traceEnv none [] (some ["string", "AAAA", "dct"]) =
      .message "[!] Error: Filter dct not implemented yet!" ∧
    doDecode traceEnv none [] (some ["string", "AAAA", "jpx"]) =
      .message "[!] Error: Filter jpx not implemented yet!" := by
  refine ⟨?_, ?_, ?_, ?_, ?_⟩ <;> decide

/-! ## Claim C5: sequential filter-chain application in `decode` -/

/-- C5, part 1: the decode loop is a sequential composition — decoding a
concatenated chain decodes the first part and feeds its output to the
second part. -/
theorem applyDecodeChain_append (env : CodecEnv) (fs gs : List String) (c : String) :
    applyDecodeChain env (fs ++ gs) c =
      (applyDecodeChain env fs c).bind (applyDecodeChain env gs) := by
  induction fs generalizing c with
  | nil => simp [applyDecodeChain, Except.bind]
  | cons f fs ih =>
    simp only [List.cons_append, applyDecodeChain]
    split
    · cases env.b64decode c <;> simp [ih, Except.bind]
    · split <;> simp [ih, Except.bind]

/-- C5: for a `decode string` invocation whose filter arguments validate,
the command emits decoded bytes exactly when every step of the chain
succeeds, and on any step's failure emits only that step's error message;
together with `applyDecodeChain_append` this is the claim's sequential,
all-or-nothing composition. -/
theorem doDecode_chain_all_or_nothing (env : CodecEnv) (pdf : Option String)
    (vars : List (String × String)) (s : String) (fargs filters : List String)
    (hne : fargs ≠ []) (hs : s ≠ "")
    (hval : validateFilterArgs notImplementedFiltersDecode
      (fun f => "[!] Error: Filter " ++ f ++ " not implemented yet!") fargs [] = .ok filters) :
    (∀ d, applyDecodeChain env filters s = .ok d →
        doDecode env pdf vars (some ("string" :: s :: fargs)) = .output d) ∧
    (∀ m, applyDecodeChain env filters s = .error m →
        doDecode env pdf vars (some ("string" :: s :: fargs)) = .message m) := by
  have hlen : ("string" :: s :: fargs).length > 2 := by
    cases fargs with
    | nil => exact absurd rfl hne
    | cons a l => simp
  constructor
  · intro d hchain
    simp [doDecode, hlen, codecValidTypes, hval, hchain, hs, hne]
  · intro m hchain
    simp [doDecode, hlen, codecValidTypes, hval, hchain, hs, hne]

/-- Witness for `doDecode_chain_all_or_nothing` at a concrete chain
`decode string x b64 fl` under the tracing oracle. -/
theorem doDecode_chain_all_or_nothing_witness :
    doDecode traceEnv none [] (some ["string", "x", "b64", "fl"]) =
      .output "/FlateDecode:b64dec:x" := by
  have h := doDecode_chain_all_or_nothing traceEnv none [] "x" ["b64", "fl"]
    ["b64", "fl"] (by decide) (by decide) (by rfl)
  exact h.1 "/FlateDecode:b64dec:x" (by rfl)

/-! ## Claim C9: `encode raw` reads `offset` bytes from offset `offset` -/

/-- C9: in `encode raw $offset $num_bytes $filters...`, both the starting
offset and the byte count passed to `getBytesFromFile` are `int(args[1])`
(the `$offset` argument), and the `$num_bytes` argument is used only for
the digits-only validity check — replacing it by any other digit string
leaves the command's behaviour unchanged. -/
theorem doEncode_raw_reads_offset_bytes :
    (∀ (env : CodecEnv) (path : String) (vars : List (String × String))
        (o n : String) (fs filters : List String),
      pyIsDigit o = true → pyIsDigit n = true →
      validateFilterArgs notImplementedFiltersEncode
        (fun f => "[!] Error: Filter \"" ++ f ++ "\" not implemented yet") fs [] = .ok filters →
      doEncode env (some path) vars (some ("raw" :: o :: n :: fs)) =
        (let ret := env.getBytesFromFile path (pyToNat o) (pyToNat o)
         if ret.1 = -1 then .message "[!] Error: The file does not exist"
         else if ret.2 = "" then .message "[!] Error: The content is empty"
         else match applyEncodeChain env filters ret.2 with
           | .error msg => .message msg
           | .ok encoded => .output encoded)) ∧
    (∀ (env : CodecEnv) (path : String) (vars : List (String × String))
        (o n₁ n₂ : String) (fs : List String),
      pyIsDigit n₁ = true → pyIsDigit n₂ = true →
      doEncode env (some path) vars (some ("raw" :: o :: n₁ :: fs)) =
        doEncode env (some path) vars (some ("raw" :: o :: n₂ :: fs))) := by
  constructor
  · intro env path vars o n fs filters ho hn hval
    have h3 : ¬ (fs.length + 1 + 1 + 1 < 3) := by omega
    by_cases hret : (env.getBytesFromFile path (pyToNat o) (pyToNat o)).1 = -1 <;>
      simp [doEncode, codecValidTypes, ho, hn, hval, h3, hret]
  · intro env path vars o n₁ n₂ fs h₁ h₂
    have h3 : ¬ (fs.length + 1 + 1 + 1 < 3) := by omega
    cases ho : pyIsDigit o <;> simp [doEncode, codecValidTypes, h₁, h₂, h3, ho]

/-- Witness for `doEncode_raw_reads_offset_bytes`: with `$offset = 7` and
`$num_bytes = 3`, the oracle receives offset `7` and size `7`. -/
theorem doEncode_raw_reads_offset_bytes_witness :
    doEncode traceEnv (some "p") [] (some ["raw", "7", "3", "b64"]) =
      .output "b64enc:R7,7" := by
  have h := (doEncode_raw_reads_offset_bytes).1 traceEnv "p" [] "7" "3" ["b64"] ["b64"]
    (by decide) (by decide) (by rfl)
  rw [h]
  rfl

/-! ## The object model

`PDFCore.py` is not among the sources, so the object variants and their
accessors are modelled from the spec (§3): a closed set of variants with a
raw form on every leaf.  Only what `PDFConsole.py` observes of them is
modelled. -/

/-- Modelled from the spec: §3's closed set of Object variants (Boolean,
Number (integer or real), String, HexString, Name, Null, Reference, Array,
Dictionary, Stream).  Leaf constructors store the raw content; dictionary
keys are `Option String` because the console stores a Python `None` key when
a user-supplied key fails name validation; `pynone` stands for a Python
`None` stored where an object is expected (a deleted element). -/
inductive PDFObj where
  | bool (raw : String)
  | num (raw : String)
  | str (raw : String)
  | hexstr (raw : String)
  | name (raw : String)
  | ref (objId gen : String)
  | null
  | array (elements : List PDFObj)
  | dict (elements : List (Option String × PDFObj))
  | stream (elements : List (Option String × PDFObj)) (decodedStream : String)
  | pynone
  deriving Repr

/-- Modelled from the spec: `getType()` as observed by the console — the
type-name strings the console compares against (`"bool"`, `"integer"`,
`"real"`, `"string"`, `"hexstring"`, `"name"`, `"reference"`, `"null"`,
`"array"`, `"dictionary"`, `"stream"`).  A Python `None` has no `getType`,
so `pynone` yields `none` (an `AttributeError` at the call site). -/
def PDFObj.getType : PDFObj → Option String
  | .bool _ => some "bool"
  | .num raw => some (if raw.toList.contains '.' then "real" else "integer")
  | .str _ => some "string"
  | .hexstr _ => some "hexstring"
  | .name _ => some "name"
  | .ref _ _ => some "reference"
  | .null => some "null"
  | .array _ => some "array"
  | .dict _ => some "dictionary"
  | .stream _ _ => some "stream"
  | .pynone => none

/-- Modelled from the spec: `getElements()` of a dictionary or stream (the
entry list); empty for other objects. -/
def PDFObj.getElements : PDFObj → List (Option String × PDFObj)
  | .dict es => es
  | .stream es _ => es
  | _ => []

/-- The current decoded stream content of a stream object. -/
def PDFObj.streamContent : PDFObj → Option String
  | .stream _ sc => some sc
  | _ => none

mutual
/-- Container-nesting depth of an object: leaves have depth 0, a container
is one deeper than its deepest element. -/
def objDepth : PDFObj → Nat
  | .array es => objDepthList es + 1
  | .dict es => objDepthPairs es + 1
  | .stream es _ => objDepthPairs es + 1
  | _ => 0

/-- Deepest nesting among a list of objects. -/
def objDepthList : List PDFObj → Nat
  | [] => 0
  | o :: rest => max (objDepth o) (objDepthList rest)

/-- Deepest nesting among a dictionary's values. -/
def objDepthPairs : List (Option String × PDFObj) → Nat
  | [] => 0
  | p :: rest => max (objDepth p.2) (objDepthPairs rest)
end

mutual
/-- Structural size measure used to bound the interactive recursion. -/
def msize : PDFObj → Nat
  | .array es => msizeList es + 1
  | .dict es => msizePairs es + 1
  | .stream es _ => msizePairs es + 1
  | _ => 1

/-- Size of a list of objects. -/
def msizeList : List PDFObj → Nat
  | [] => 1
  | o :: rest => msize o + msizeList rest + 1

/-- Size of a dictionary's entry list. -/
def msizePairs : List (Option String × PDFObj) → Nat
  | [] => 1
  | p :: rest => msize p.2 + msizePairs rest + 1
end

/-! ## `checkInputContent` (lines 4695-4757) -/

/-- Python `\s` / `str.strip()` whitespace (ASCII). -/
def isPyWs (c : Char) : Bool :=
  c == ' ' || c == '\t' || c == '\n' || c == '\x0b' || c == '\x0c' || c == '\r'

/-- Python `str.split()`: split on whitespace runs, discarding empties. -/
def pySplit (s : String) : List String :=
  (s.split (fun c => isPyWs c)).filter (fun w => w ≠ "")

/-- The matches of `re.findall("\\\\(\d{1,3})", content)`: each maximal run
of 1-3 digits directly following a backslash, scanning left to right without
overlap. -/
def findOctalEscapes (l : List Char) : List (List Char) :=
  match l with
  | [] => []
  | c :: rest =>
    if c = '\\' then
      let ds := (rest.takeWhile Char.isDigit).take 3
      if ds.isEmpty then findOctalEscapes rest
      else ds :: findOctalEscapes (rest.drop ds.length)
    else findOctalEscapes rest
termination_by l.length
decreasing_by
  · simp
  · simp [List.length_drop]; omega
  · simp

/-- `chr(int(octal, 8))` succeeds exactly when the matched digits are octal
(`int(_, 8)` raises on `8`/`9`; the value is at most 0o777, so `chr` cannot
fail). -/
def octalEscapesOk (l : List Char) : Bool :=
  (findOctalEscapes l).all (fun ds => ds.all (fun c => c ≤ '7'))

/-- Digit run with single underscores between digits (the tail after the
first digit), as accepted by Python numeric literals. -/
def digitsUTail : List Char → Bool
  | [] => true
  | '_' :: [] => false
  | '_' :: c :: rest => c.isDigit && digitsUTail rest
  | c :: rest => c.isDigit && digitsUTail rest

/-- Non-empty digit run with single underscores between digits. -/
def digitsU : List Char → Bool
  | [] => false
  | c :: rest => c.isDigit && digitsUTail rest

/-- Python `int(s)` succeeds: surrounding whitespace, optional sign,
non-empty underscore-grouped digit run. -/
def pyIntValid (s : String) : Bool :=
  let l := ((s.toList.dropWhile isPyWs).reverse.dropWhile isPyWs).reverse
  match l with
  | '+' :: rest => digitsU rest
  | '-' :: rest => digitsU rest
  | _ => digitsU l

/-- Split a char list at the first `e`/`E` (exponent marker). -/
def splitAtExp : List Char → List Char × Option (List Char)
  | [] => ([], none)
  | c :: rest =>
    if c = 'e' ∨ c = 'E' then ([], some rest)
    else
      let p := splitAtExp rest
      (c :: p.1, p.2)

/-- Split a char list at the first `.`. -/
def splitAtDot : List Char → List Char × Option (List Char)
  | [] => ([], none)
  | c :: rest =>
    if c = '.' then ([], some rest)
    else
      let p := splitAtDot rest
      (c :: p.1, p.2)

/-- Mantissa of a Python float literal: digits, with an optional dot, at
least one digit overall. -/
def floatMantOk (m : List Char) : Bool :=
  match splitAtDot m with
  | (ip, none) => digitsU ip
  | ([], some fp) => digitsU fp
  | (ip, some []) => digitsU ip
  | (ip, some fp) => digitsU ip && digitsU fp

/-- Python `float(s)` succeeds: whitespace, sign, `inf`/`infinity`/`nan`
or mantissa with optional exponent. -/
def pyFloatValid (s : String) : Bool :=
  let l := ((s.toList.dropWhile isPyWs).reverse.dropWhile isPyWs).reverse
  let body := fun (b : List Char) =>
    let lb := b.map Char.toLower
    if lb = "inf".toList || lb = "infinity".toList || lb = "nan".toList then true
    else
      match splitAtExp b with
      | (m, none) => floatMantOk m
      | (m, some e) =>
        floatMantOk m &&
          (match e with
           | '+' :: r => digitsU r
           | '-' :: r => digitsU r
           | r => digitsU r)
  match l with
  | '+' :: rest => body rest
  | '-' :: rest => body rest
  | _ => body l

/-- `re.match("\d{1,10}\s\d{1,10}\sR", content, re.IGNORECASE)`: an anchored
match of 1-10 digits, one whitespace, 1-10 digits, one whitespace and `R` or
`r`; trailing characters are ignored. -/
def refMatch (l : List Char) : Bool :=
  let d1 := l.takeWhile Char.isDigit
  decide (1 ≤ d1.length) && decide (d1.length ≤ 10) &&
    match l.drop d1.length with
    | w :: rest =>
      isPyWs w &&
        (let d2 := rest.takeWhile Char.isDigit
         decide (1 ≤ d2.length) && decide (d2.length ≤ 10) &&
           match rest.drop d2.length with
           | w2 :: r2 =>
             isPyWs w2 &&
               match r2 with
               | c :: _ => c = 'R' || c = 'r'
               | [] => false
           | [] => false)
    | [] => false

/-- `spacesChars` of `checkInputContent` (line 4703). -/
def spacesChars : List Char := ['\x00', '\t', '\n', '\x0c', '\r', ' ']

/-- `demilimiterChars` of `checkInputContent` (line 4704); the membership
test compares single characters against these strings, so the two-character
entry `"<<"` can never match. -/
def delimiterChars : List String := ["<<", "(", "<", "[", "\x7b", "/", "%"]

/-- `char in spacesChars + demilimiterChars` for a single character. -/
def charInSpacesDelims (c : Char) : Bool :=
  spacesChars.contains c || delimiterChars.contains (String.singleton c)

/-- Result of `checkInputContent`: the Python function returns the possibly
rewritten content, returns `None`, or raises (`IndexError` on an empty name). -/
inductive CicRes where
  | crash
  | invalid
  | ok (s : String)
  deriving DecidableEq, Repr

/-- Embeds `checkInputContent` (lines 4695-4757).  Note that the first
branch tests `objectType == "bool"` while `addObject` passes `"boolean"`,
so content for `addObject`'s boolean objects falls through unvalidated. -/
def checkInputContent (objectType objectContent : String) : CicRes :=
  if objectType = "bool" then
    if pyLower objectContent ∉ ["true", "false"] then .invalid
    else .ok (pyLower objectContent)
  else if objectType = "number" then
    if objectContent.toList.contains '.' then
      if pyFloatValid objectContent then .ok objectContent else .invalid
    else
      if pyIntValid objectContent then .ok objectContent else .invalid
  else if objectType = "string" then
    if octalEscapesOk objectContent.toList then .ok objectContent else .invalid
  else if objectType = "hexstring" then
    let stripped := objectContent.toList.filter (fun c => c ≠ '<' ∧ c ≠ '>')
    if stripped.all (fun c => c.isDigit || ('a' ≤ c && c ≤ 'f') || ('A' ≤ c && c ≤ 'F')) then
      .ok (String.mk stripped)
    else .invalid
  else if objectType = "name" then
    match objectContent.toList with
    | [] => .crash
    | c :: rest =>
      let body := if c = '/' then rest else c :: rest
      if body.any charInSpacesDelims then .invalid
      else .ok ("/" ++ String.mk body)
  else if objectType = "reference" then
    if refMatch objectContent.toList then
      .ok (String.mk (objectContent.toList.map (fun c => if c = 'r' then 'R' else c)))
    else .invalid
  else if objectType = "null" then
    if pyLower objectContent ≠ "null" then .invalid
    else .ok (pyLower objectContent)
  else .ok objectContent

/-! ## `addObject` / `modifyObject` (lines 4600-4693 and 4846-4985)

Interactive object construction and modification.  User interaction is a
list of input strings; exhausting it models `EOFError`.  The functions take
an explicit fuel argument (first parameter) so that they are structurally
recursive; `addObjectF_total`/`modifyObjectF_total` below show that fuel
bounded by the input-stream length (plus the object size for modification)
always suffices, which is the termination contract. -/

/-- Result of an `addObject`/`modifyObject` call: `(-1, msg)`, `(0, obj)`
(where a Python `None` second component is `.ok .pynone`), or an uncaught
exception. -/
inductive AddRes where
  | err (msg : String)
  | ok (o : PDFObj)
  | crash
  deriving Repr

/-- Result of one of the interactive element loops. -/
inductive ElemsLoopRes where
  | done (es : List PDFObj)
  | fail (r : AddRes)
  deriving Repr

/-- Result of one of the interactive dictionary-entry loops. -/
inductive PairsLoopRes where
  | done (es : List (Option String × PDFObj))
  | fail (r : AddRes)
  deriving Repr

/-- `dictNumType` of `addObject` (lines 4608-4618). -/
def dictNumType (res : String) : String :=
  if res = "1" then "boolean"
  else if res = "2" then "number"
  else if res = "3" then "string"
  else if res = "4" then "hexstring"
  else if res = "5" then "name"
  else if res = "6" then "reference"
  else if res = "7" then "null"
  else if res = "8" then "array"
  else "dictionary"

/-- `additionRequest` (lines 4583-4598): one input, lower-cased, accepted if
`y`/`n`, else `None`. -/
def additionRequestRes (r : String) : Option String :=
  if pyLower r ∈ ["y", "n"] then some (pyLower r) else none

/-- `modifyRequest` (lines 4987-5015): one input, lower-cased, accepted if
`m`/`d`/`n`, else `None`. -/
def modifyRequestRes (r : String) : Option String :=
  if pyLower r ∈ ["m", "d", "n"] then some (pyLower r) else none

/-- Python dict assignment `d[k] = v` on an insertion-ordered dictionary:
overwrite in place if present, else append. -/
def pyDictSet (es : List (Option String × PDFObj)) (k : Option String) (v : PDFObj) :
    List (Option String × PDFObj) :=
  if es.any (fun p => p.1 = k) then es.map (fun p => if p.1 = k then (k, v) else p)
  else es ++ [(k, v)]

/-- `newObject is not None` (line 4920). -/
def PDFObj.isPyNone : PDFObj → Bool
  | .pynone => true
  | _ => false

/-- Leaf construction in `addObject` (lines 4644-4660). -/
def buildLeaf (objectType content : String) : PDFObj :=
  if objectType = "boolean" then .bool content
  else if objectType = "number" then .num content
  else if objectType = "string" then .str content
  else if objectType = "hexstring" then .hexstr content
  else if objectType = "name" then .name content
  else if objectType = "reference" then
    let parts := pySplit content
    .ref (parts.getD 0 "") (parts.getD 1 "")
  else .null

/-- Modelled from the spec: `setRawValue` replaces a leaf's raw form in
place (§3: "any explicit `setRawValue` invalidates cached decoded forms"). -/
def setRawValue (o : PDFObj) (content : String) : PDFObj :=
  match o with
  | .bool _ => .bool content
  | .num _ => .num content
  | .str _ => .str content
  | .hexstr _ => .hexstr content
  | .name _ => .name content
  | .ref _ _ =>
    let parts := pySplit content
    .ref (parts.getD 0 "") (parts.getD 1 "")
  | .null => .null
  | other => other

/-- The leaf finalisation of `modifyObject` (lines 4898-4909): validate the
content, then either build a fresh object of the changed type or overwrite
the raw value of the existing one. -/
def modifyLeafFinish (o : PDFObj) (objectType newType content : String)
    (inputs : List String) : AddRes × List String :=
  match checkInputContent newType content with
  | .crash => (.crash, inputs)
  | .invalid => (.err "[!] Error: Content not valid for the object type", inputs)
  | .ok content =>
    if newType ≠ objectType then
      if newType = "string" then (.ok (.str content), inputs)
      else if newType = "hexstring" then (.ok (.hexstr content), inputs)
      else if newType = "number" then (.ok (.num content), inputs)
      else (.ok o, inputs)
    else (.ok (setRawValue o content), inputs)

/-- Key validation inside the dictionary-entry loops (lines 4684-4685 and
4976-4977): the key is validated as a name; a failed validation stores a
Python `None` key; an empty key raises.  `none` models the raise. -/
def nameKeyStep (key : String) : Option (Option String) :=
  match checkInputContent "name" key with
  | .crash => none
  | .invalid => some none
  | .ok k => some (some k)

/-- The ascii/hex question and the implicit numeric retyping of
`modifyObject` (lines 4868-4880).  Returns the new object type (`""` for an
invalid string-type answer) and the remaining inputs; `none` models
`EOFError`. -/
def modifyTyStep (objectType : String) (inputs : List String) :
    Option (String × List String) :=
  if objectType = "string" ∨ objectType = "hexstring" then
    match inputs with
    | [] => none
    | r :: inputs =>
      if r = "1" then some ("string", inputs)
      else if r = "2" then some ("hexstring", inputs)
      else some ("", inputs)
  else if objectType = "integer" ∨ objectType = "real" then some ("number", inputs)
  else some (objectType, inputs)

/-- The stream-content step of `modifyObject` at iteration 0 (lines
4937-4952): ask `m`/`d`/`n` for the stream; `d` clears the decoded stream,
`m` takes content from the content file or the next input, anything else
keeps the old content.  `none` models `EOFError`. -/
def modifyStreamStep (isStream : Bool) (contentFile : Option String)
    (oldSC : Option String) (inputs : List String) :
    Option (Option String × List String) :=
  if isStream then
    match inputs with
    | [] => none
    | r :: inputs =>
      let resp := modifyRequestRes r
      if resp = some "d" then some (some "", inputs)
      else if resp = some "m" then
        match contentFile with
        | some c => some (some c, inputs)
        | none =>
          match inputs with
          | [] => none
          | sc :: inputs => some (some sc, inputs)
      else some (oldSC, inputs)
  else some (oldSC, inputs)

mutual

/-- Embeds `addObject` (lines 4600-4693): interactive construction of one
object at recursion depth `iteration`; recursive element construction
passes `iteration + 1`. -/
def addObjectF (fuel iteration maxDepth : Nat) (inputs : List String) :
    Option (AddRes × List String) :=
  match fuel with
  | 0 => none
  | fuel + 1 =>
    if iteration > maxDepth then some (.err "Object too nested", inputs)
    else
      match inputs with
      | [] => some (.crash, [])
      | res :: inputs =>
        if !pyIsDigit res || pyToNat res < 1 || pyToNat res > 9 then
          some (.err "Object type not valid", inputs)
        else
          let objectType := dictNumType res
          if objectType ≠ "array" ∧ objectType ≠ "dictionary" then
            match inputs with
            | [] => some (.crash, [])
            | content :: inputs =>
              match checkInputContent objectType content with
              | .crash => some (.crash, inputs)
              | .invalid =>
                some (.err "[!] Error: Content not valid for the object type", inputs)
              | .ok content => some (.ok (buildLeaf objectType content), inputs)
          else if objectType = "array" then
            match addElemsLoopF fuel iteration maxDepth [] inputs with
            | none => none
            | some (.done es, rest) => some (.ok (.array es), rest)
            | some (.fail r, rest) => some (r, rest)
          else
            match addDictLoopF fuel iteration maxDepth [] inputs with
            | none => none
            | some (.done es, rest) => some (.ok (.dict es), rest)
            | some (.fail r, rest) => some (r, rest)

/-- The `while True` element-addition loop for arrays (lines 4664-4674,
also reached from `modifyObject` at lines 4922-4932): ask `y`/`n`, on `y`
build one more element at depth `iteration + 1`. -/
def addElemsLoopF (fuel iteration maxDepth : Nat) (acc : List PDFObj)
    (inputs : List String) : Option (ElemsLoopRes × List String) :=
  match fuel with
  | 0 => none
  | fuel + 1 =>
    match inputs with
    | [] => some (.fail .crash, [])
    | r :: inputs =>
      match additionRequestRes r with
      | none => some (.fail (.err "Option not valid"), inputs)
      | some res =>
        if res = "y" then
          match addObjectF fuel (iteration + 1) maxDepth inputs with
          | none => none
          | some (.ok o, rest) => addElemsLoopF fuel iteration maxDepth (acc ++ [o]) rest
          | some (.err m, rest) => some (.fail (.err m), rest)
          | some (.crash, rest) => some (.fail .crash, rest)
        else some (.done acc, inputs)

/-- The `while True` entry-addition loop for dictionaries (lines 4679-4691,
also reached from `modifyObject` at lines 4971-4983): ask `y`/`n`, on `y`
read a key, validate it as a name (an invalid key becomes Python `None`),
and build its value at depth `iteration + 1`. -/
def addDictLoopF (fuel iteration maxDepth : Nat)
    (acc : List (Option String × PDFObj)) (inputs : List String) :
    Option (PairsLoopRes × List String) :=
  match fuel with
  | 0 => none
  | fuel + 1 =>
    match inputs with
    | [] => some (.fail .crash, [])
    | r :: inputs =>
      match additionRequestRes r with
      | none => some (.fail (.err "Option not valid"), inputs)
      | some res =>
        if res = "y" then
          match inputs with
          | [] => some (.fail .crash, [])
          | key :: inputs =>
            match nameKeyStep key with
            | none => some (.fail .crash, inputs)
            | some keyOpt =>
              match addObjectF fuel (iteration + 1) maxDepth inputs with
              | none => none
              | some (.ok o, rest) =>
                addDictLoopF fuel iteration maxDepth (pyDictSet acc keyOpt o) rest
              | some (.err m, rest) => some (.fail (.err m), rest)
              | some (.crash, rest) => some (.fail .crash, rest)
        else some (.done acc, inputs)

/-- Embeds `modifyObject` (lines 4846-4985): interactive modification of an
existing object; every recursive call for a nested element passes
`iteration + 1`. -/
def modifyObjectF (fuel : Nat) (o : PDFObj) (iteration : Nat)
    (contentFile : Option String) (maxDepth : Nat) (inputs : List String) :
    Option (AddRes × List String) :=
  match fuel with
  | 0 => none
  | fuel + 1 =>
    if iteration > maxDepth then some (.err "Object too nested", inputs)
    else
      match o.getType with
      | none => some (.crash, inputs)
      | some objectType =>
        if objectType ≠ "array" ∧ objectType ≠ "stream" ∧ objectType ≠ "dictionary" then
          if contentFile.isSome ∧ iteration = 0 then
            some (modifyLeafFinish o objectType objectType (contentFile.getD "") inputs)
          else
            match modifyTyStep objectType inputs with
            | none => some (.crash, [])
            | some (newType, inputs) =>
              if newType = "" then
                some (.err "[!] Error: The string type is not valid", inputs)
              else if iteration = 0 then
                match inputs with
                | [] => some (.crash, [])
                | content :: inputs =>
                  some (modifyLeafFinish o objectType newType content inputs)
              else
                match inputs with
                | [] => some (.crash, [])
                | r :: inputs =>
                  let resp := modifyRequestRes r
                  if resp = some "d" then some (.ok .pynone, inputs)
                  else if resp = some "m" then
                    match inputs with
                    | [] => some (.crash, [])
                    | content :: inputs =>
                      some (modifyLeafFinish o objectType newType content inputs)
                  else some (.ok o, inputs)
        else if objectType = "array" then
          match o with
          | .array es =>
            match modifyArrayElemsF fuel es iteration maxDepth inputs with
            | none => none
            | some (.fail r, rest) => some (r, rest)
            | some (.done newEls, rest) =>
              match addElemsLoopF fuel iteration maxDepth newEls rest with
              | none => none
              | some (.fail r, rest') => some (r, rest')
              | some (.done finalEls, rest') => some (.ok (.array finalEls), rest')
          | _ => some (.crash, inputs)
        else if objectType = "stream" ∧ iteration ≠ 0 then
          -- dictionary or stream (lines 4934-4984); nested stream (line 4954)
          some (.err "Nested streams are not permitted", inputs)
        else
          match modifyStreamStep (objectType = "stream") contentFile
              o.streamContent inputs with
          | none => some (.crash, [])
          | some (newStreamContent, inputs) =>
              match modifyDictElemsF fuel o.getElements iteration maxDepth [] inputs with
              | none => none
              | some (.fail r, rest) => some (r, rest)
              | some (.done newEls, rest) =>
                match addDictLoopF fuel iteration maxDepth newEls rest with
                | none => none
                | some (.fail r, rest') => some (r, rest')
                | some (.done finalEls, rest') =>
                  if objectType = "stream" then
                    some (.ok (.stream finalEls (newStreamContent.getD "")), rest')
                  else
                    some (.ok (.dict finalEls), rest')

/-- The element loop of `modifyObject` for arrays (lines 4911-4921): each
element is recursively modified at `iteration + 1`; a deleted element
(Python `None`) is dropped. -/
def modifyArrayElemsF (fuel : Nat) (es : List PDFObj) (iteration maxDepth : Nat)
    (inputs : List String) : Option (ElemsLoopRes × List String) :=
  match fuel with
  | 0 => none
  | fuel + 1 =>
    match es with
    | [] => some (.done [], inputs)
    | e :: es =>
      match modifyObjectF fuel e (iteration + 1) none maxDepth inputs with
      | none => none
      | some (.err m, rest) => some (.fail (.err m), rest)
      | some (.crash, rest) => some (.fail .crash, rest)
      | some (.ok newObj, rest) =>
        match modifyArrayElemsF fuel es iteration maxDepth rest with
        | none => none
        | some (.fail r, rest') => some (.fail r, rest')
        | some (.done tail, rest') =>
          some (.done (if newObj.isPyNone then tail else newObj :: tail), rest')

/-- The entry loop of `modifyObject` for dictionaries and streams (lines
4955-4970): for each entry ask `m`/`d`/`n`; `n` keeps it, `m` recursively
modifies it at `iteration + 1` (a `None` result is stored as the value),
anything else drops it. -/
def modifyDictElemsF (fuel : Nat) (es : List (Option String × PDFObj))
    (iteration maxDepth : Nat) (acc : List (Option String × PDFObj))
    (inputs : List String) : Option (PairsLoopRes × List String) :=
  match fuel with
  | 0 => none
  | fuel + 1 =>
    match es with
    | [] => some (.done acc, inputs)
    | (k, v) :: es =>
      match inputs with
      | [] => some (.fail .crash, [])
      | r :: inputs =>
        let resp := modifyRequestRes r
        if resp = some "n" then
          modifyDictElemsF fuel es iteration maxDepth (pyDictSet acc k v) inputs
        else if resp = some "m" then
          match modifyObjectF fuel v (iteration + 1) none maxDepth inputs with
          | none => none
          | some (.err m, rest) => some (.fail (.err m), rest)
          | some (.crash, rest) => some (.fail .crash, rest)
          | some (.ok newObj, rest) =>
            modifyDictElemsF fuel es iteration maxDepth (pyDictSet acc k newObj) rest
        else modifyDictElemsF fuel es iteration maxDepth acc inputs

end

/-! ### One-step unfolding equations for the interactive functions -/

theorem addObjectF_zero (iteration maxDepth : Nat) (inputs : List String) :
    addObjectF 0 iteration maxDepth inputs = none := by
  with_unfolding_all rfl

theorem addObjectF_succ (fuel iteration maxDepth : Nat) (inputs : List String) :
    addObjectF (fuel + 1) iteration maxDepth inputs =
      (if iteration > maxDepth then some (.err "Object too nested", inputs)
    else
      match inputs with
      | [] => some (.crash, [])
      | res :: inputs =>
        if !pyIsDigit res || pyToNat res < 1 || pyToNat res > 9 then
          some (.err "Object type not valid", inputs)
        else
          if dictNumType res ≠ "array" ∧ dictNumType res ≠ "dictionary" then
            match inputs with
            | [] => some (.crash, [])
            | content :: inputs =>
              match checkInputContent (dictNumType res) content with
              | .crash => some (.crash, inputs)
              | .invalid =>
                some (.err "[!] Error: Content not valid for the object type", inputs)
              | .ok content => some (.ok (buildLeaf (dictNumType res) content), inputs)
          else if dictNumType res = "array" then
            match addElemsLoopF fuel iteration maxDepth [] inputs with
            | none => none
            | some (.done es, rest) => some (.ok (.array es), rest)
            | some (.fail r, rest) => some (r, rest)
          else
            match addDictLoopF fuel iteration maxDepth [] inputs with
            | none => none
            | some (.done es, rest) => some (.ok (.dict es), rest)
            | some (.fail r, rest) => some (r, rest)) := by
  with_unfolding_all rfl

theorem addElemsLoopF_zero (iteration maxDepth : Nat) (acc : List PDFObj) (inputs : List String) :
    addElemsLoopF 0 iteration maxDepth acc inputs = none := by
  with_unfolding_all rfl

theorem addElemsLoopF_succ (fuel iteration maxDepth : Nat) (acc : List PDFObj) (inputs : List String) :
    addElemsLoopF (fuel + 1) iteration maxDepth acc inputs =
      (match inputs with
    | [] => some (.fail .crash, [])
    | r :: inputs =>
      match additionRequestRes r with
      | none => some (.fail (.err "Option not valid"), inputs)
      | some res =>
        if res = "y" then
          match addObjectF fuel (iteration + 1) maxDepth inputs with
          | none => none
          | some (.ok o, rest) => addElemsLoopF fuel iteration maxDepth (acc ++ [o]) rest
          | some (.err m, rest) => some (.fail (.err m), rest)
          | some (.crash, rest) => some (.fail .crash, rest)
        else some (.done acc, inputs)) := by
  with_unfolding_all rfl

theorem addDictLoopF_zero (iteration maxDepth : Nat) (acc : List (Option String × PDFObj)) (inputs : List String) :
    addDictLoopF 0 iteration maxDepth acc inputs = none := by
  with_unfolding_all rfl

theorem addDictLoopF_succ (fuel iteration maxDepth : Nat) (acc : List (Option String × PDFObj)) (inputs : List String) :
    addDictLoopF (fuel + 1) iteration maxDepth acc inputs =
      (match inputs with
    | [] => some (.fail .crash, [])
    | r :: inputs =>
      match additionRequestRes r with
      | none => some (.fail (.err "Option not valid"), inputs)
      | some res =>
        if res = "y" then
          match inputs with
          | [] => some (.fail .crash, [])
          | key :: inputs =>
            match nameKeyStep key with
            | none => some (.fail .crash, inputs)
            | some keyOpt =>
              match addObjectF fuel (iteration + 1) maxDepth inputs with
              | none => none
              | some (.ok o, rest) =>
                addDictLoopF fuel iteration maxDepth (pyDictSet acc keyOpt o) rest
              | some (.err m, rest) => some (.fail (.err m), rest)
              | some (.crash, rest) => some (.fail .crash, rest)
        else some (.done acc, inputs)) := by
  with_unfolding_all rfl

theorem modifyObjectF_zero (o : PDFObj) (iteration : Nat) (contentFile : Option String) (maxDepth : Nat) (inputs : List String) :
    modifyObjectF 0 o iteration contentFile maxDepth inputs = none := by
  with_unfolding_all rfl

theorem modifyObjectF_succ (fuel : Nat) (o : PDFObj) (iteration : Nat) (contentFile : Option String) (maxDepth : Nat) (inputs : List String) :
    modifyObjectF (fuel + 1) o iteration contentFile maxDepth inputs =
      (if iteration > maxDepth then some (.err "Object too nested", inputs)
    else
      match o.getType with
      | none => some (.crash, inputs)
      | some objectType =>
        if objectType ≠ "array" ∧ objectType ≠ "stream" ∧ objectType ≠ "dictionary" then
          if contentFile.isSome ∧ iteration = 0 then
            some (modifyLeafFinish o objectType objectType (contentFile.getD "") inputs)
          else
            match modifyTyStep objectType inputs with
            | none => some (.crash, [])
            | some (newType, inputs) =>
              if newType = "" then
                some (.err "[!] Error: The string type is not valid", inputs)
              else if iteration = 0 then
                match inputs with
                | [] => some (.crash, [])
                | content :: inputs =>
                  some (modifyLeafFinish o objectType newType content inputs)
              else
                match inputs with
                | [] => some (.crash, [])
                | r :: inputs =>
                  if modifyRequestRes r = some "d" then some (.ok .pynone, inputs)
                  else if modifyRequestRes r = some "m" then
                    match inputs with
                    | [] => some (.crash, [])
                    | content :: inputs =>
                      some (modifyLeafFinish o objectType newType content inputs)
                  else some (.ok o, inputs)
        else if objectType = "array" then
          match o with
          | .array es =>
            match modifyArrayElemsF fuel es iteration maxDepth inputs with
            | none => none
            | some (.fail r, rest) => some (r, rest)
            | some (.done newEls, rest) =>
              match addElemsLoopF fuel iteration maxDepth newEls rest with
              | none => none
              | some (.fail r, rest') => some (r, rest')
              | some (.done finalEls, rest') => some (.ok (.array finalEls), rest')
          | _ => some (.crash, inputs)
        else if objectType = "stream" ∧ iteration ≠ 0 then
          -- dictionary or stream (lines 4934-4984); nested stream (line 4954)
          some (.err "Nested streams are not permitted", inputs)
        else
          match modifyStreamStep (objectType = "stream") contentFile
              o.streamContent inputs with
          | none => some (.crash, [])
          | some (newStreamContent, inputs) =>
              match modifyDictElemsF fuel o.getElements iteration maxDepth [] inputs with
              | none => none
              | some (.fail r, rest) => some (r, rest)
              | some (.done newEls, rest) =>
                match addDictLoopF fuel iteration maxDepth newEls rest with
                | none => none
                | some (.fail r, rest') => some (r, rest')
                | some (.done finalEls, rest') =>
                  if objectType = "stream" then
                    some (.ok (.stream finalEls (newStreamContent.getD "")), rest')
                  else
                    some (.ok (.dict finalEls), rest')) := by
  with_unfolding_all rfl

theorem modifyArrayElemsF_zero (es : List PDFObj) (iteration maxDepth : Nat) (inputs : List String) :
    modifyArrayElemsF 0 es iteration maxDepth inputs = none := by
  with_unfolding_all rfl

theorem modifyArrayElemsF_succ (fuel : Nat) (es : List PDFObj) (iteration maxDepth : Nat) (inputs : List String) :
    modifyArrayElemsF (fuel + 1) es iteration maxDepth inputs =
      (match es with
    | [] => some (.done [], inputs)
    | e :: es =>
      match modifyObjectF fuel e (iteration + 1) none maxDepth inputs with
      | none => none
      | some (.err m, rest) => some (.fail (.err m), rest)
      | some (.crash, rest) => some (.fail .crash, rest)
      | some (.ok newObj, rest) =>
        match modifyArrayElemsF fuel es iteration maxDepth rest with
        | none => none
        | some (.fail r, rest') => some (.fail r, rest')
        | some (.done tail, rest') =>
          some (.done (if newObj.isPyNone then tail else newObj :: tail), rest')) := by
  with_unfolding_all rfl

theorem modifyDictElemsF_zero (es : List (Option String × PDFObj)) (iteration maxDepth : Nat) (acc : List (Option String × PDFObj)) (inputs : List String) :
    modifyDictElemsF 0 es iteration maxDepth acc inputs = none := by
  with_unfolding_all rfl

theorem modifyDictElemsF_succ (fuel : Nat) (es : List (Option String × PDFObj)) (iteration maxDepth : Nat) (acc : List (Option String × PDFObj)) (inputs : List String) :
    modifyDictElemsF (fuel + 1) es iteration maxDepth acc inputs =
      (match es with
    | [] => some (.done acc, inputs)
    | (k, v) :: es =>
      match inputs with
      | [] => some (.fail .crash, [])
      | r :: inputs =>
        if modifyRequestRes r = some "n" then
          modifyDictElemsF fuel es iteration maxDepth (pyDictSet acc k v) inputs
        else if modifyRequestRes r = some "m" then
          match modifyObjectF fuel v (iteration + 1) none maxDepth inputs with
          | none => none
          | some (.err m, rest) => some (.fail (.err m), rest)
          | some (.crash, rest) => some (.fail .crash, rest)
          | some (.ok newObj, rest) =>
            modifyDictElemsF fuel es iteration maxDepth (pyDictSet acc k newObj) rest
        else modifyDictElemsF fuel es iteration maxDepth acc inputs) := by
  with_unfolding_all rfl

/-! ### Input-consumption bounds for the interactive functions -/

/-- Injectivity helper for the `some (a, b) = some (r, rest)` equations. -/
theorem some_pair_inj {α β : Type} {a r : α} {b rest : β}
    (h : (some (a, b) : Option (α × β)) = some (r, rest)) : a = r ∧ b = rest := by
  simpa using h

/-- `modifyLeafFinish` returns its input stream unchanged. -/
theorem modifyLeafFinish_snd (o : PDFObj) (a b c : String) (inputs : List String) :
    (modifyLeafFinish o a b c inputs).2 = inputs := by
  unfold modifyLeafFinish
  split
  · rfl
  · rfl
  · split
    · split
      · rfl
      · split
        · rfl
        · split <;> rfl
    · rfl

theorem addObjectF_consume (fuel : Nat)
    (ihE : ∀ it md acc inputs r rest, addElemsLoopF fuel it md acc inputs = some (r, rest) →
      rest.length ≤ inputs.length)
    (ihD : ∀ it md acc inputs r rest, addDictLoopF fuel it md acc inputs = some (r, rest) →
      rest.length ≤ inputs.length) :
    ∀ it md inputs r rest, addObjectF (fuel + 1) it md inputs = some (r, rest) →
      rest.length ≤ inputs.length := by
  intro it md inputs r rest h
  simp only [addObjectF_succ] at h
  repeat' split at h
  all_goals (try exact Option.noConfusion h)
  all_goals (obtain ⟨rfl, rfl⟩ := some_pair_inj h)
  all_goals (try (first
    | omega
    | (simp only [List.length_cons, List.length_nil]; omega)))
  all_goals
    (rename_i heq
     first
       | have hc := ihE _ _ _ _ _ _ heq
       | have hc := ihD _ _ _ _ _ _ heq
     simp only [List.length_cons]
     omega)


theorem modifyTyStep_consume (t : String) (inputs : List String) (nt : String)
    (rest : List String) (h : modifyTyStep t inputs = some (nt, rest)) :
    rest.length ≤ inputs.length := by
  simp only [modifyTyStep] at h
  repeat' split at h
  all_goals (try exact Option.noConfusion h)
  all_goals (obtain ⟨rfl, rfl⟩ := some_pair_inj h)
  all_goals ((try simp only [List.length_cons, List.length_nil]); omega)

theorem modifyStreamStep_consume (b : Bool) (cf : Option String) (sc : Option String)
    (inputs : List String) (nc : Option String) (rest : List String)
    (h : modifyStreamStep b cf sc inputs = some (nc, rest)) :
    rest.length ≤ inputs.length := by
  simp only [modifyStreamStep] at h
  repeat' split at h
  all_goals (try exact Option.noConfusion h)
  all_goals (obtain ⟨rfl, rfl⟩ := some_pair_inj h)
  all_goals ((try simp only [List.length_cons, List.length_nil]); omega)

theorem addElemsLoopF_consume (fuel : Nat)
    (ihA : ∀ it md inputs r rest, addObjectF fuel it md inputs = some (r, rest) →
      rest.length ≤ inputs.length)
    (ihE : ∀ it md acc inputs r rest, addElemsLoopF fuel it md acc inputs = some (r, rest) →
      rest.length ≤ inputs.length) :
    ∀ it md acc inputs r rest, addElemsLoopF (fuel + 1) it md acc inputs = some (r, rest) →
      rest.length ≤ inputs.length := by
  intro it md acc inputs r rest h
  rw [addElemsLoopF_succ] at h
  repeat' split at h
  all_goals (try exact Option.noConfusion h)
  all_goals (try subst_vars)
  all_goals
    (try (have l1 := ihA _ _ _ _ _ (by assumption)))
  all_goals
    (try (obtain ⟨rfl, rfl⟩ := some_pair_inj h))
  all_goals
    (try (have l2 := ihE _ _ _ _ _ _ h))
  all_goals ((try simp only [List.length_cons, List.length_nil] at *); omega)

theorem addDictLoopF_consume (fuel : Nat)
    (ihA : ∀ it md inputs r rest, addObjectF fuel it md inputs = some (r, rest) →
      rest.length ≤ inputs.length)
    (ihD : ∀ it md acc inputs r rest, addDictLoopF fuel it md acc inputs = some (r, rest) →
      rest.length ≤ inputs.length) :
    ∀ it md acc inputs r rest, addDictLoopF (fuel + 1) it md acc inputs = some (r, rest) →
      rest.length ≤ inputs.length := by
  intro it md acc inputs r rest h
  rw [addDictLoopF_succ] at h
  repeat' split at h
  all_goals (try exact Option.noConfusion h)
  all_goals (try subst_vars)
  all_goals
    (try (have l1 := ihA _ _ _ _ _ (by assumption)))
  all_goals
    (try (obtain ⟨rfl, rfl⟩ := some_pair_inj h))
  all_goals
    (try (have l2 := ihD _ _ _ _ _ _ h))
  all_goals ((try simp only [List.length_cons, List.length_nil] at *); omega)

set_option maxHeartbeats 1600000 in
theorem modifyObjectF_consume (fuel : Nat)
    (ihE : ∀ it md acc inputs r rest, addElemsLoopF fuel it md acc inputs = some (r, rest) →
      rest.length ≤ inputs.length)
    (ihD : ∀ it md acc inputs r rest, addDictLoopF fuel it md acc inputs = some (r, rest) →
      rest.length ≤ inputs.length)
    (ihAE : ∀ es it md inputs r rest, modifyArrayElemsF fuel es it md inputs = some (r, rest) →
      rest.length ≤ inputs.length)
    (ihDE : ∀ es it md acc inputs r rest, modifyDictElemsF fuel es it md acc inputs = some (r, rest) →
      rest.length ≤ inputs.length) :
    ∀ o it cf md inputs r rest, modifyObjectF (fuel + 1) o it cf md inputs = some (r, rest) →
      rest.length ≤ inputs.length := by
  intro o it cf md inputs r rest h
  rw [modifyObjectF_succ] at h
  simp only [modifyLeafFinish] at h
  repeat' split at h
  all_goals (try exact Option.noConfusion h)
  all_goals (try subst_vars)
  all_goals
    (try (have l1 := modifyTyStep_consume _ _ _ _ (by assumption)))
  all_goals
    (try (have l2 := modifyStreamStep_consume _ _ _ _ _ _ (by assumption)))
  all_goals
    (try (have l3 := ihAE _ _ _ _ _ _ (by assumption)))
  all_goals
    (try (have l4 := ihDE _ _ _ _ _ _ _ (by assumption)))
  all_goals
    (try (have l5 := ihE _ _ _ _ _ _ (by assumption)))
  all_goals
    (try (have l6 := ihD _ _ _ _ _ _ (by assumption)))
  all_goals (try (obtain ⟨rfl, rfl⟩ := some_pair_inj h))
  all_goals ((try simp only [List.length_cons, List.length_nil] at *); omega)

theorem modifyArrayElemsF_consume (fuel : Nat)
    (ihM : ∀ o it cf md inputs r rest, modifyObjectF fuel o it cf md inputs = some (r, rest) →
      rest.length ≤ inputs.length)
    (ihAE : ∀ es it md inputs r rest, modifyArrayElemsF fuel es it md inputs = some (r, rest) →
      rest.length ≤ inputs.length) :
    ∀ es it md inputs r rest, modifyArrayElemsF (fuel + 1) es it md inputs = some (r, rest) →
      rest.length ≤ inputs.length := by
  intro es it md inputs r rest h
  rw [modifyArrayElemsF_succ] at h
  repeat' split at h
  all_goals (try exact Option.noConfusion h)
  all_goals
    (try (have l1 := ihM _ _ _ _ _ _ _ (by assumption)))
  all_goals
    (try (have l2 := ihAE _ _ _ _ _ _ (by assumption)))
  all_goals (try (obtain ⟨rfl, rfl⟩ := some_pair_inj h))
  all_goals ((try simp only [List.length_cons, List.length_nil] at *); omega)

theorem modifyDictElemsF_consume (fuel : Nat)
    (ihM : ∀ o it cf md inputs r rest, modifyObjectF fuel o it cf md inputs = some (r, rest) →
      rest.length ≤ inputs.length)
    (ihDE : ∀ es it md acc inputs r rest, modifyDictElemsF fuel es it md acc inputs = some (r, rest) →
      rest.length ≤ inputs.length) :
    ∀ es it md acc inputs r rest, modifyDictElemsF (fuel + 1) es it md acc inputs = some (r, rest) →
      rest.length ≤ inputs.length := by
  intro es it md acc inputs r rest h
  rw [modifyDictElemsF_succ] at h
  repeat' split at h
  all_goals (try exact Option.noConfusion h)
  all_goals
    (try (have l1 := ihM _ _ _ _ _ _ _ (by assumption)))
  all_goals
    (try (have l2 := ihDE _ _ _ _ _ _ _ (by assumption)))
  all_goals (try (obtain ⟨rfl, rfl⟩ := some_pair_inj h))
  all_goals ((try simp only [List.length_cons, List.length_nil] at *); omega)

/-- Every interactive function only consumes from the front of its input
stream: the returned remainder is no longer than the input. -/
theorem interactConsume (fuel : Nat) :
    (∀ it md inputs r rest, addObjectF fuel it md inputs = some (r, rest) →
      rest.length ≤ inputs.length) ∧
    (∀ it md acc inputs r rest, addElemsLoopF fuel it md acc inputs = some (r, rest) →
      rest.length ≤ inputs.length) ∧
    (∀ it md acc inputs r rest, addDictLoopF fuel it md acc inputs = some (r, rest) →
      rest.length ≤ inputs.length) ∧
    (∀ o it cf md inputs r rest, modifyObjectF fuel o it cf md inputs = some (r, rest) →
      rest.length ≤ inputs.length) ∧
    (∀ es it md inputs r rest, modifyArrayElemsF fuel es it md inputs = some (r, rest) →
      rest.length ≤ inputs.length) ∧
    (∀ es it md acc inputs r rest, modifyDictElemsF fuel es it md acc inputs = some (r, rest) →
      rest.length ≤ inputs.length) := by
  induction fuel with
  | zero =>
    refine ⟨?_, ?_, ?_, ?_, ?_, ?_⟩ <;> intros <;> rename_i h <;>
      first
        | (rw [addObjectF_zero] at h; exact Option.noConfusion h)
        | (rw [addElemsLoopF_zero] at h; exact Option.noConfusion h)
        | (rw [addDictLoopF_zero] at h; exact Option.noConfusion h)
        | (rw [modifyObjectF_zero] at h; exact Option.noConfusion h)
        | (rw [modifyArrayElemsF_zero] at h; exact Option.noConfusion h)
        | (rw [modifyDictElemsF_zero] at h; exact Option.noConfusion h)
  | succ fuel ih =>
    obtain ⟨ihA, ihE, ihD, ihM, ihAE, ihDE⟩ := ih
    exact ⟨addObjectF_consume fuel ihE ihD,
           addElemsLoopF_consume fuel ihA ihE,
           addDictLoopF_consume fuel ihA ihD,
           modifyObjectF_consume fuel ihE ihD ihAE ihDE,
           modifyArrayElemsF_consume fuel ihM ihAE,
           modifyDictElemsF_consume fuel ihM ihDE⟩

/-! ### Termination of the interactive recursion: bounded fuel suffices -/

theorem msize_pos (o : PDFObj) : 1 ≤ msize o := by
  cases o <;> simp [msize]

theorem msizeList_pos (es : List PDFObj) : 1 ≤ msizeList es := by
  cases es <;> simp [msizeList]

theorem msizePairs_pos (es : List (Option String × PDFObj)) : 1 ≤ msizePairs es := by
  cases es <;> simp [msizePairs]

/-- Fuel bounded by the length of the input stream (plus the structural size
of the object being modified) always suffices: the interactive recursion of
`addObject`/`modifyObject` terminates on every finite input stream. -/
theorem interactTotal (fuel : Nat) :
    (∀ it md inputs, inputs.length + 1 ≤ fuel →
      (addObjectF fuel it md inputs).isSome) ∧
    (∀ it md acc inputs, inputs.length + 1 ≤ fuel →
      (addElemsLoopF fuel it md acc inputs).isSome) ∧
    (∀ it md acc inputs, inputs.length + 1 ≤ fuel →
      (addDictLoopF fuel it md acc inputs).isSome) ∧
    (∀ o it cf md inputs, inputs.length + msize o + 1 ≤ fuel →
      (modifyObjectF fuel o it cf md inputs).isSome) ∧
    (∀ es it md inputs, inputs.length + msizeList es + 1 ≤ fuel →
      (modifyArrayElemsF fuel es it md inputs).isSome) ∧
    (∀ es it md acc inputs, inputs.length + msizePairs es + 1 ≤ fuel →
      (modifyDictElemsF fuel es it md acc inputs).isSome) := by
  induction fuel with
  | zero =>
    refine ⟨?_, ?_, ?_, ?_, ?_, ?_⟩ <;> intros <;> omega
  | succ fuel ih =>
    obtain ⟨ihA, ihE, ihD, ihM, ihAE, ihDE⟩ := ih
    have cons := interactConsume fuel
    refine ⟨?_, ?_, ?_, ?_, ?_, ?_⟩
    · -- addObjectF
      intro it md inputs hle
      rw [addObjectF_succ]
      split
      · simp
      · split
        · simp
        · rename_i r tl
          split
          · simp
          · split
            · -- leaf: only terminal results
              repeat' split
              all_goals simp
            · split
              · -- array
                have hE := ihE it md [] tl
                  (by simp only [List.length_cons] at hle; omega)
                split
                all_goals (try (rename_i heqN; rw [heqN] at hE; simp at hE; done))
                all_goals simp
              · -- dictionary
                have hD := ihD it md [] tl
                  (by simp only [List.length_cons] at hle; omega)
                split
                all_goals (try (rename_i heqN; rw [heqN] at hD; simp at hD; done))
                all_goals simp
    · -- addElemsLoopF
      intro it md acc inputs hle
      rw [addElemsLoopF_succ]
      split
      · simp
      · rename_i r tl
        split
        · simp
        · rename_i res
          split
          · have hA := ihA (it + 1) md tl
              (by simp only [List.length_cons] at hle; omega)
            split
            all_goals (try (rename_i heqN; rw [heqN] at hA; simp at hA; done))
            all_goals (try simp)
            all_goals
              (rename_i o rest0 heqO
               have hc := cons.1 _ _ _ _ _ heqO
               exact ihE it md (acc ++ [o]) rest0
                 (by simp only [List.length_cons] at hle; omega))
          · simp
    · -- addDictLoopF
      intro it md acc inputs hle
      rw [addDictLoopF_succ]
      split
      · simp
      · rename_i r tl
        split
        · simp
        · rename_i res
          split
          · split
            · simp
            · rename_i key tl2
              split
              · simp
              · rename_i keyOpt heqK
                have hA := ihA (it + 1) md tl2
                  (by simp only [List.length_cons] at hle; omega)
                split
                all_goals (try (rename_i heqN; rw [heqN] at hA; simp at hA; done))
                all_goals (try simp)
                all_goals
                  (rename_i o rest0 heqO
                   have hc := cons.1 _ _ _ _ _ heqO
                   exact ihD it md (pyDictSet acc keyOpt o) rest0
                     (by simp only [List.length_cons] at hle; omega))
          · simp
    · -- modifyObjectF
      intro o it cf md inputs hle
      rw [modifyObjectF_succ]
      split
      · simp
      · split
        · simp
        · rename_i objectType heqTy
          split
          · -- leaf: only terminal results
            repeat' split
            all_goals simp
          · split
            · -- array branch: match o
              split
              all_goals (try simp)
              rename_i es
              have hbound : inputs.length + msizeList es + 1 ≤ fuel := by
                simp only [msize] at hle; omega
              have h1 := msizeList_pos es
              have hAE := ihAE es it md inputs hbound
              split
              all_goals (try (rename_i heqN; rw [heqN] at hAE; simp at hAE; done))
              all_goals (try simp)
              all_goals
                (rename_i newEls rest0 heq
                 have hc := (cons.2.2.2.2.1) _ _ _ _ _ _ heq
                 have hE := ihE it md newEls rest0 (by omega)
                 split
                 all_goals (try (rename_i heqN2; rw [heqN2] at hE; simp at hE; done))
                 all_goals simp)
            · split
              · simp
              · -- dictionary / stream branch
                split
                · simp
                · rename_i nc tlS heqS
                  have hcS := modifyStreamStep_consume _ _ _ _ _ _ heqS
                  have hbound : tlS.length +
                      msizePairs o.getElements + 1 ≤ fuel := by
                    cases o
                    case pynone => exact Option.noConfusion heqTy
                    case dict es =>
                      have hm : msize (PDFObj.dict es) = msizePairs es + 1 := rfl
                      show tlS.length + msizePairs es + 1 ≤ fuel
                      omega
                    case stream es sc =>
                      have hm : msize (PDFObj.stream es sc) = msizePairs es + 1 := rfl
                      show tlS.length + msizePairs es + 1 ≤ fuel
                      omega
                    all_goals (try (obtain rfl := Option.some.inj heqTy; simp_all; done))
                    all_goals (obtain rfl := Option.some.inj heqTy;
                               split_ifs at * <;> simp_all)
                  have hp := msizePairs_pos o.getElements
                  have hDE := ihDE o.getElements it md [] tlS hbound
                  split
                  all_goals (try (rename_i heqN; rw [heqN] at hDE; simp at hDE; done))
                  all_goals (try simp)
                  all_goals
                    (rename_i newEls rest0 heq
                     have hc := (cons.2.2.2.2.2) _ _ _ _ _ _ _ heq
                     have hD := ihD it md newEls rest0 (by omega)
                     split
                     all_goals (try (rename_i heqN2; rw [heqN2] at hD; simp at hD; done))
                     all_goals (try (split <;> simp))
                     all_goals simp)
    · -- modifyArrayElemsF
      intro es it md inputs hle
      rw [modifyArrayElemsF_succ]
      split
      · simp
      · rename_i e es2
        have h1 := msizeList_pos es2
        have h2 := msize_pos e
        have hM := ihM e (it + 1) none md inputs
          (by simp only [msizeList] at hle; omega)
        split
        all_goals (try (rename_i heqN; rw [heqN] at hM; simp at hM; done))
        all_goals (try simp)
        all_goals
          (rename_i newObj rest0 heqO
           have hc := (cons.2.2.2.1) _ _ _ _ _ _ _ heqO
           have hAE := ihAE es2 it md rest0
             (by simp only [msizeList] at hle; omega)
           split
           all_goals (try (rename_i heqN2; rw [heqN2] at hAE; simp at hAE; done))
           all_goals simp)
    · -- modifyDictElemsF
      intro es it md acc inputs hle
      rw [modifyDictElemsF_succ]
      split
      · simp
      · rename_i k v es2
        split
        · simp
        · rename_i r tl
          have h1 := msizePairs_pos es2
          have h2 := msize_pos v
          split
          · exact ihDE es2 it md (pyDictSet acc k v) tl
              (by simp only [msizePairs, List.length_cons] at hle ⊢; omega)
          · split
            · have hM := ihM v (it + 1) none md tl
                (by simp only [msizePairs, List.length_cons] at hle; omega)
              split
              all_goals (try (rename_i heqN; rw [heqN] at hM; simp at hM; done))
              all_goals (try simp)
              all_goals
                (rename_i newObj rest0 heqO
                 have hc := (cons.2.2.2.1) _ _ _ _ _ _ _ heqO
                 exact ihDE es2 it md (pyDictSet acc k newObj) rest0
                   (by simp only [msizePairs, List.length_cons] at hle hc ⊢; omega))
            · exact ihDE es2 it md acc tl
                (by simp only [msizePairs, List.length_cons] at hle ⊢; omega)

/-! ### Depth bound for interactively built objects -/

/-- Every leaf built by `addObject` has depth 0. -/
theorem objDepth_buildLeaf (t c : String) : objDepth (buildLeaf t c) = 0 := by
  unfold buildLeaf
  repeat' split
  all_goals rfl

theorem objDepthList_le (es : List PDFObj) (b : Nat)
    (h : ∀ o ∈ es, objDepth o ≤ b) : objDepthList es ≤ b := by
  induction es with
  | nil => simp [objDepthList]
  | cons e es ih =>
    have he := h e (by simp)
    have ht := ih (fun o ho => h o (by simp [ho]))
    simp only [objDepthList]
    omega

theorem objDepthPairs_le (es : List (Option String × PDFObj)) (b : Nat)
    (h : ∀ p ∈ es, objDepth p.2 ≤ b) : objDepthPairs es ≤ b := by
  induction es with
  | nil => simp [objDepthPairs]
  | cons e es ih =>
    have he := h e (by simp)
    have ht := ih (fun o ho => h o (by simp [ho]))
    simp only [objDepthPairs]
    omega

/-- Membership after a Python dict assignment: either an old entry or the
assigned one. -/
theorem pyDictSet_mem (acc : List (Option String × PDFObj)) (k : Option String)
    (v : PDFObj) : ∀ p ∈ pyDictSet acc k v, p ∈ acc ∨ p = (k, v) := by
  intro p hp
  unfold pyDictSet at hp
  split at hp
  · obtain ⟨q, hq, hfq⟩ := List.mem_map.mp hp
    by_cases hqk : q.1 = k
    · right; rw [← hfq]; simp [hqk]
    · left; rw [← hfq]; simp [hqk]; exact hq
  · rcases List.mem_append.mp hp with hin | hin
    · left; exact hin
    · right; simpa using hin

/-- The element loops only propagate failures: a `.fail` result never wraps
a successfully built object. -/
theorem addLoopsFailNotOk (fuel : Nat) :
    (∀ it md acc inputs r rest,
      addElemsLoopF fuel it md acc inputs = some (.fail r, rest) →
      ∀ o, r ≠ AddRes.ok o) ∧
    (∀ it md acc inputs r rest,
      addDictLoopF fuel it md acc inputs = some (.fail r, rest) →
      ∀ o, r ≠ AddRes.ok o) := by
  induction fuel with
  | zero =>
    constructor <;> intro it md acc inputs r rest h o <;>
      first
        | (rw [addElemsLoopF_zero] at h; exact Option.noConfusion h)
        | (rw [addDictLoopF_zero] at h; exact Option.noConfusion h)
  | succ fuel ih =>
    obtain ⟨ihE, ihD⟩ := ih
    constructor
    · intro it md acc inputs r rest h o
      rw [addElemsLoopF_succ] at h
      repeat' split at h
      all_goals (try exact Option.noConfusion h)
      all_goals (try (first
        | exact ihE _ _ _ _ _ _ h o
        | exact ihD _ _ _ _ _ _ h o))
      all_goals (simp at h; try (obtain ⟨rfl, rfl⟩ := h; simp))
    · intro it md acc inputs r rest h o
      rw [addDictLoopF_succ] at h
      repeat' split at h
      all_goals (try exact Option.noConfusion h)
      all_goals (try (first
        | exact ihE _ _ _ _ _ _ h o
        | exact ihD _ _ _ _ _ _ h o))
      all_goals (simp at h; try (obtain ⟨rfl, rfl⟩ := h; simp))

/-- Objects built interactively never nest deeper than the depth budget:
`addObject` called at `iteration` can only return objects of depth at most
`maxDepth + 1 - iteration`, because every recursive element construction
passes `iteration + 1` and the guard rejects `iteration > maxDepth`. -/
theorem addDepthBound (fuel : Nat) :
    (∀ it md inputs o rest, addObjectF fuel it md inputs = some (.ok o, rest) →
      objDepth o ≤ md + 1 - it) ∧
    (∀ it md acc inputs es rest,
      addElemsLoopF fuel it md acc inputs = some (.done es, rest) →
      ∀ o ∈ es, o ∈ acc ∨ objDepth o ≤ md - it) ∧
    (∀ it md acc inputs es rest,
      addDictLoopF fuel it md acc inputs = some (.done es, rest) →
      ∀ p ∈ es, p ∈ acc ∨ objDepth p.2 ≤ md - it) := by
  induction fuel with
  | zero =>
    refine ⟨?_, ?_, ?_⟩
    · intro it md inputs o rest h
      rw [addObjectF_zero] at h
      exact Option.noConfusion h
    · intro it md acc inputs es rest h
      rw [addElemsLoopF_zero] at h
      exact Option.noConfusion h
    · intro it md acc inputs es rest h
      rw [addDictLoopF_zero] at h
      exact Option.noConfusion h
  | succ fuel ih =>
    obtain ⟨ihA, ihE, ihD⟩ := ih
    refine ⟨?_, ?_, ?_⟩
    · intro it md inputs o rest h
      rw [addObjectF_succ] at h
      repeat' split at h
      all_goals (try exact Option.noConfusion h)
      all_goals (try (simp at h))
      all_goals (try (obtain ⟨rfl, rfl⟩ := h; rename_i heqF; exact absurd rfl ((addLoopsFailNotOk fuel).1 _ _ _ _ _ _ heqF o)))
      all_goals (try (obtain ⟨rfl, rfl⟩ := h; rename_i heqF; exact absurd rfl ((addLoopsFailNotOk fuel).2 _ _ _ _ _ _ heqF o)))
      · -- leaf
        obtain ⟨rfl, rfl⟩ := h
        simp [objDepth_buildLeaf]
      · -- array
        rename_i hguard hother harr es0 rest0 heq
        obtain ⟨rfl, rfl⟩ := h
        have hes := ihE _ _ _ _ _ _ heq
        have hdl : objDepthList es0 ≤ md - it := by
          apply objDepthList_le
          intro q hq
          rcases hes q hq with hin | hle2
          · exact absurd hin (List.not_mem_nil q)
          · exact hle2
        have hd : objDepth (PDFObj.array es0) = objDepthList es0 + 1 := rfl
        omega
      · -- dictionary
        rename_i hguard hother harr es0 rest0 heq
        obtain ⟨rfl, rfl⟩ := h
        have hes := ihD _ _ _ _ _ _ heq
        have hdl : objDepthPairs es0 ≤ md - it := by
          apply objDepthPairs_le
          intro q hq
          rcases hes q hq with hin | hle2
          · exact absurd hin (List.not_mem_nil q)
          · exact hle2
        have hd : objDepth (PDFObj.dict es0) = objDepthPairs es0 + 1 := rfl
        omega
    · intro it md acc inputs es rest h
      rw [addElemsLoopF_succ] at h
      repeat' split at h
      all_goals (try exact Option.noConfusion h)
      all_goals (try (simp at h))
      · -- the `y`/`ok` tail call
        rename_i heqO
        have hdO := ihA _ _ _ _ _ (by assumption)
        have hrec := ihE _ _ _ _ _ _ h
        intro o ho
        rcases hrec o ho with hin | hle2
        · rcases List.mem_append.mp hin with hin2 | hin2
          · exact Or.inl hin2
          · right
            have : o ∈ [_] := hin2
            simp at this
            subst this
            omega
        · exact Or.inr hle2
      · -- the `n` exit: the accumulated list is returned unchanged
        obtain ⟨rfl, rfl⟩ := h
        intro o ho
        exact Or.inl ho
    · intro it md acc inputs es rest h
      rw [addDictLoopF_succ] at h
      repeat' split at h
      all_goals (try exact Option.noConfusion h)
      all_goals (try (simp at h))
      · -- the `y`/`ok` tail call
        rename_i newObj rest0 heqO
        have hdO := ihA _ _ _ _ _ heqO
        have hrec := ihD _ _ _ _ _ _ h
        intro p hp
        rcases hrec p hp with hin | hle2
        · rcases pyDictSet_mem _ _ _ p hin with hin2 | hin2
          · exact Or.inl hin2
          · right
            rw [hin2]
            show objDepth newObj ≤ md - it
            omega
        · exact Or.inr hle2
      · obtain ⟨rfl, rfl⟩ := h
        intro p hp
        exact Or.inl hp

/-! ### Claim C2 -/

/-- A dictionary nested `n` levels deep, used to probe the depth bound. -/
def deepDict : Nat → PDFObj
  | 0 => .num "1"
  | n + 1 => .dict [(some "k", deepDict n)]

/-- C2 counterexample: `modifyObject` on a 12-deep dictionary, with the user
answering `n` (do not modify) to every entry, succeeds and returns the
object unchanged even though its nesting depth 12 exceeds the bound 10: the
depth guard only fires on branches the interaction actually descends into,
so "no object built or modified through these operations ever nests deeper
than the bound" is false for `modifyObject`. -/
theorem modifyObject_preserves_overdeep_nesting :
    modifyObjectF 5 (deepDict 12) 0 none 10 ["n", "n"] =
      some (.ok (deepDict 12), []) ∧
    10 < objDepth (deepDict 12) := by
  constructor
  · with_unfolding_all rfl
  · decide

/-- C2 (amended): the depth guard itself holds — any call of `addObject` or
`modifyObject` with `iteration > maxDepth` immediately returns the failure
`(-1, "Object too nested")` with no input consumed; every object **built**
by `addObject` at `iteration` has depth at most `maxDepth + 1 - iteration`;
and the recursion always terminates (a fuel of one more than the number of
available input lines, plus the size of the object being modified, is
always enough for a result). -/
theorem nesting_depth_guard_and_bound :
    (∀ fuel it md inputs, it > md →
      addObjectF (fuel + 1) it md inputs = some (.err "Object too nested", inputs)) ∧
    (∀ fuel o it cf md inputs, it > md →
      modifyObjectF (fuel + 1) o it cf md inputs =
        some (.err "Object too nested", inputs)) ∧
    (∀ fuel it md inputs o rest,
      addObjectF fuel it md inputs = some (.ok o, rest) →
      objDepth o ≤ md + 1 - it) ∧
    (∀ fuel it md inputs, inputs.length + 1 ≤ fuel →
      (addObjectF fuel it md inputs).isSome) ∧
    (∀ fuel o it cf md inputs, inputs.length + msize o + 1 ≤ fuel →
      (modifyObjectF fuel o it cf md inputs).isSome) := by
  refine ⟨?_, ?_, ?_, ?_, ?_⟩
  · intro fuel it md inputs hgt
    rw [addObjectF_succ, if_pos hgt]
  · intro fuel o it cf md inputs hgt
    rw [modifyObjectF_succ, if_pos hgt]
  · intro fuel it md inputs o rest h
    exact (addDepthBound fuel).1 it md inputs o rest h
  · intro fuel it md inputs hle
    exact (interactTotal fuel).1 it md inputs hle
  · intro fuel o it cf md inputs hle
    exact (interactTotal fuel).2.2.2.1 o it cf md inputs hle

theorem nesting_depth_guard_and_bound_witness :
    addObjectF 1 11 10 ["x"] = some (.err "Object too nested", ["x"]) ∧
    modifyObjectF 1 (.num "3") 11 none 10 [] =
      some (.err "Object too nested", []) ∧
    objDepth PDFObj.null ≤ 10 + 1 - 0 ∧
    (addObjectF 3 0 10 ["7", "null"]).isSome ∧
    (modifyObjectF 4 (.num "3") 0 none 10 ["x"]).isSome :=
  ⟨nesting_depth_guard_and_bound.1 0 11 10 ["x"] (by decide),
   nesting_depth_guard_and_bound.2.1 0 (.num "3") 11 none 10 [] (by decide),
   nesting_depth_guard_and_bound.2.2.1 2 0 10 ["7", "null"] PDFObj.null []
     (by with_unfolding_all rfl),
   nesting_depth_guard_and_bound.2.2.2.1 3 0 10 ["7", "null"] (by decide),
   nesting_depth_guard_and_bound.2.2.2.2 4 (.num "3") 0 none 10 ["x"] (by decide)⟩

/-! ## The `filters` command (`do_filters`, lines 1345-1466) -/

/-- Modelled from the spec: `hasElement(name)` of a dictionary or stream. -/
def PDFObj.hasElement (o : PDFObj) (k : String) : Bool :=
  o.getElements.any (fun p => p.1 = some k)

/-- Modelled from the spec: `getElementByName(name)`; `pynone` models the
Python `None` returned when the element is absent. -/
def PDFObj.getElementByName (o : PDFObj) (k : String) : PDFObj :=
  match o.getElements.find? (fun p => p.1 = some k) with
  | some p => p.2
  | none => .pynone

/-- Modelled from the spec: `setElement(name, value)` stores the value under
the key, overwriting in place (§3: elements are an insertion-ordered
dictionary). -/
def PDFObj.setElement (o : PDFObj) (k : Option String) (v : PDFObj) : PDFObj :=
  match o with
  | .dict es => .dict (pyDictSet es k v)
  | .stream es sc => .stream (pyDictSet es k v) sc
  | o => o

/-- Modelled from the spec: `delElement(name)` removes the entry with the
key. -/
def PDFObj.delElement (o : PDFObj) (k : Option String) : PDFObj :=
  match o with
  | .dict es => .dict (es.filter (fun p => p.1 != k))
  | .stream es sc => .stream (es.filter (fun p => p.1 != k)) sc
  | o => o

/-- The document collaborators of the console commands, passed as oracles:
`getNumUpdates()`, `getObject(id, version)` (with `none` for a Python
`None` version) and the status pair returned by `setObject`. -/
structure PDFDoc where
  numUpdates : Nat
  getObject : Nat → Option Nat → Option PDFObj
  setObjectRet : Int × String

/-- Outcomes of `do_filters`: each failure return of the source is a
distinct constructor; `shown` is the display branch (the `/Filter` element
and, if present, `/DecodeParms`); `success` carries the object as written
back by `setObject`. -/
inductive FiltersOut where
  | mustOpen
  | parseErr
  | helpFail
  | notImpl (f : String)
  | verErr
  | objNotFound
  | notStream
  | noFilters
  | shown (filterVal : PDFObj) (parms : Option PDFObj)
  | streamErr
  | setErr (m : String)
  | success (newObj : PDFObj)
  deriving Repr

/-- `validFilters` of `do_filters` (lines 1379-1381): the alias dictionary's
keys plus `"none"`, with `"b64"` and `"base64"` removed. -/
def validSetFilters : List String :=
  ((filterDictKeys ++ ["none"]).erase "b64").erase "base64"

/-- The filter-collection loop of `do_filters` (lines 1382-1391): lower-case
each argument, reject unknown aliases with the help text and known but
unimplemented ones with a message, and accumulate the rest in order. -/
def collectSetFilters : List String → Except FiltersOut (List String)
  | [] => .ok []
  | a :: rest =>
    let f := pyLower a
    if f ∉ validSetFilters then .error .helpFail
    else if f ∈ notImplementedFiltersSet then .error (.notImpl f)
    else
      match collectSetFilters rest with
      | .error e => .error e
      | .ok fs => .ok (f :: fs)

/-- The `while True: filters.remove("none")` loop of `do_filters` (lines
1444-1448): repeatedly remove the first `"none"` until none is left. -/
def removeNoneLoop (fs : List String) : List String :=
  if h : "none" ∈ fs then removeNoneLoop (fs.erase "none") else fs
termination_by fs.length
decreasing_by
  have hlen := List.length_erase_of_mem h
  have hpos : 0 < fs.length := List.length_pos.mpr (List.ne_nil_of_mem h)
  omega

/-- Embeds `do_filters` (lines 1345-1466). The display branch carries the
raw elements rather than their rendered values; everything the claim C6
talks about (validation, version check and the `/Filter` mutation) is
followed line by line. In the source, `version` is only ever a digit string
when non-`None` (line 1375), so the dead re-check at line 1394 is not
represented. A failed `getStream()` returns `-1`; both it and the empty
stream take the same error branch (line 1427), so the embedded stream
content `""` covers both. -/
def doFilters (pdfFile : Option PDFDoc) (args : Option (List String)) :
    FiltersOut :=
  match pdfFile with
  | none => .mustOpen
  | some doc =>
    match args with
    | none => .parseErr
    | some [] => .parseErr
    | some (a0 :: restArgs) =>
      let vf : Except FiltersOut (Option String × List String) :=
        if restArgs.isEmpty then .ok (none, [])
        else
          let (version, filterArgs) :=
            if pyIsDigit (restArgs.headD "") then
              (some (restArgs.headD ""), restArgs.tail)
            else (none, restArgs)
          match collectSetFilters filterArgs with
          | .error e => .error e
          | .ok fs => .ok (version, fs)
      match vf with
      | .error e => e
      | .ok (version, fs) =>
        if !pyIsDigit a0 then .helpFail
        else
          let verChk : Except FiltersOut (Option Nat) :=
            match version with
            | none => .ok none
            | some v =>
              if pyToNat v > doc.numUpdates then .error .verErr
              else .ok (some (pyToNat v))
          match verChk with
          | .error e => e
          | .ok vOpt =>
            match doc.getObject (pyToNat a0) vOpt with
            | none => .objNotFound
            | some obj =>
              if obj.getType != some "stream" then .notStream
              else if fs.isEmpty then
                if obj.hasElement "/Filter" then
                  .shown (obj.getElementByName "/Filter")
                    (if obj.hasElement "/DecodeParms" then
                      some (obj.getElementByName "/DecodeParms")
                    else none)
                else .noFilters
              else
                let value := (obj.streamContent).getD ""
                if value = "" then .streamErr
                else
                  let obj2 :=
                    if fs.length = 1 then
                      if fs.headD "" = "none" then obj.delElement (some "/Filter")
                      else obj.setElement (some "/Filter")
                        (.name (realFilterOf (fs.headD "")))
                    else
                      let pruned := removeNoneLoop fs
                      let arr := pruned.reverse.map
                        (fun f => PDFObj.name (realFilterOf f))
                      if !arr.isEmpty then
                        obj.setElement (some "/Filter") (.array arr)
                      else obj
                  if doc.setObjectRet.1 = -1 then .setErr doc.setObjectRet.2
                  else .success obj2

/-- Removing the first `"none"` does not change the `"none"`-free
sublist. -/
theorem filter_erase_none (fs : List String) :
    (fs.erase "none").filter (fun f => f != "none") =
      fs.filter (fun f => f != "none") := by
  induction fs with
  | nil => rfl
  | cons b bs ih =>
    by_cases hb : b = "none"
    · subst hb
      simp [List.erase_cons]
    · simp [List.erase_cons, hb, ih]

/-- The `remove("none")` loop is exactly an order-preserving filter. -/
theorem removeNoneLoop_eq_filter (fs : List String) :
    removeNoneLoop fs = fs.filter (fun f => f != "none") := by
  induction fs using removeNoneLoop.induct with
  | case1 fs h ih =>
    unfold removeNoneLoop
    rw [dif_pos h, ih]
    exact filter_erase_none fs
  | case2 fs h =>
    unfold removeNoneLoop
    rw [dif_neg h]
    refine (List.filter_eq_self.mpr ?_).symm
    intro a ha
    simp only [bne_iff_ne, ne_eq]
    intro heq
    exact h (heq ▸ ha)

/-- A list of valid, implemented aliases passes the collection loop and
comes out lower-cased in order. -/
theorem collectSetFilters_ok (fargs : List String)
    (hvalid : ∀ f ∈ fargs,
      pyLower f ∈ validSetFilters ∧ pyLower f ∉ notImplementedFiltersSet) :
    collectSetFilters fargs = .ok (fargs.map pyLower) := by
  induction fargs with
  | nil => rfl
  | cons a rest ih =>
    obtain ⟨hin, hni⟩ := hvalid a (by simp)
    unfold collectSetFilters
    rw [if_neg (by simpa using hin), if_neg (by simpa using hni),
      ih (fun f hf => hvalid f (by simp [hf]))]
    rfl

/-- C6, the spec's words: a single `"none"` deletes `/Filter`, a single
name sets `/Filter` to that name, and two or more filters set `/Filter` to
the array of the corresponding real filter names in reverse command-line
order with every `"none"` removed.  Defined from the claim, to be compared
with `doFilters`. -/
def specFilterSet (obj : PDFObj) (fs : List String) : PDFObj :=
  if fs.length = 1 then
    if fs.headD "" = "none" then obj.delElement (some "/Filter")
    else obj.setElement (some "/Filter") (.name (realFilterOf (fs.headD "")))
  else
    obj.setElement (some "/Filter")
      (.array ((fs.filter (fun f => f != "none")).reverse.map
        (fun f => PDFObj.name (realFilterOf f))))

/-- C6: on a stream object with a decodable stream, setting filters writes
exactly what the claim says: a single `"none"` deletes the `/Filter` entry,
a single filter name sets `/Filter` to that name, and two or more filters
set `/Filter` to the array of the corresponding filter names in the reverse
of the command-line order with every `"none"` entry removed (provided some
name remains, since the source skips the write when the pruned list is
empty). -/
theorem filters_set_matches_spec
    (doc : PDFDoc) (oid v : String) (fargs : List String)
    (es : List (Option String × PDFObj)) (sc : String)
    (hoid : pyIsDigit oid = true) (hv : pyIsDigit v = true)
    (hver : ¬ pyToNat v > doc.numUpdates)
    (hobj : doc.getObject (pyToNat oid) (some (pyToNat v)) = some (.stream es sc))
    (hsc : sc ≠ "")
    (hset : doc.setObjectRet.1 ≠ -1)
    (hfs : fargs ≠ [])
    (hvalid : ∀ f ∈ fargs,
      pyLower f ∈ validSetFilters ∧ pyLower f ∉ notImplementedFiltersSet)
    (hprune : 2 ≤ fargs.length →
      (fargs.map pyLower).filter (fun f => f != "none") ≠ []) :
    doFilters (some doc) (some (oid :: v :: fargs)) =
      .success (specFilterSet (.stream es sc) (fargs.map pyLower)) := by
  have hcoll := collectSetFilters_ok fargs hvalid
  have hfs2 : (fargs.map pyLower) ≠ [] := by simpa using hfs
  unfold doFilters
  simp only [List.isEmpty_cons, List.headD_cons, List.tail_cons, hv, if_true,
    hcoll, hoid, Bool.not_true, Bool.false_eq_true, if_false, if_neg hver,
    hobj]
  simp only [PDFObj.getType, PDFObj.streamContent, Option.getD_some]
  rw [if_neg (by simp)]
  rw [if_neg (by simpa using hfs2)]
  rw [if_neg hsc, if_neg hset]
  unfold specFilterSet
  by_cases hlen : (fargs.map pyLower).length = 1
  · rw [if_pos hlen, if_pos hlen]
  · rw [if_neg hlen, if_neg hlen]
    have h2 : 2 ≤ fargs.length := by
      have := List.length_map fargs pyLower ▸ List.length_pos.mpr hfs2
      have hlen2 : (fargs.map pyLower).length = fargs.length :=
        List.length_map fargs pyLower
      omega
    rw [removeNoneLoop_eq_filter]
    rw [if_pos (by simpa using hprune h2)]

/-- A concrete one-version document holding a single stream object. -/
def demoDoc : PDFDoc where
  numUpdates := 0
  getObject := fun _ _ => some (.stream [] "S")
  setObjectRet := (0, "")

theorem filters_set_matches_spec_witness :
    doFilters (some demoDoc) (some ["5", "0", "fl", "none", "ahx"]) =
      .success (specFilterSet (.stream [] "S") ["fl", "none", "ahx"]) :=
  filters_set_matches_spec demoDoc "5" "0" ["fl", "none", "ahx"] [] "S"
    (by decide) (by decide) (by decide) rfl (by decide) (by decide)
    (by decide) (by decide) (by decide)

/-! ## Version-argument validation preludes (claim C3)

Each command taking an optional version argument is embedded up to the
point where it would invoke the underlying document operation; `proceed`
carries the validated version that would be passed on. -/

/-- Common outcomes of the command preludes. `crash` models an uncaught
Python exception; `fileErr` the "file does not exist" failure of
`do_modify`. -/
inductive CmdPrelude where
  | mustOpen
  | parseErr
  | help
  | verErr
  | fileErr
  | crash
  | proceed (version : Option Nat)
  deriving Repr, DecidableEq

/-- Embeds the prelude of `do_changelog` (lines 236-261). -/
def changelogPrelude (pdfFile : Option PDFDoc) (args : Option (List String)) :
    CmdPrelude :=
  match pdfFile with
  | none => .mustOpen
  | some doc =>
    match args with
    | none => .parseErr
    | some [] => .proceed none
    | some [v] =>
      if ¬ pyIsDigit v then .help
      else if pyToNat v > doc.numUpdates then .verErr
      else .proceed (some (pyToNat v))
    | some _ => .help

/-- Embeds the prelude of `do_create` for the `object_stream` element type
(lines 321-402); the `pdf` branch takes no version argument and is cut off
at `proceed none`. -/
def createObjectStreamPrelude (pdfFile : Option PDFDoc)
    (args : Option (List String)) : CmdPrelude :=
  match args with
  | none => .parseErr
  | some [] => .parseErr
  | some (elementType :: rest) =>
    if elementType ∉ ["pdf", "object_stream"] then .help
    else if elementType = "pdf" then .proceed none
    else
      match pdfFile with
      | none => .mustOpen
      | some doc =>
        match rest with
        | [] => .proceed none
        | [v] =>
          if ¬ pyIsDigit v then .help
          else if pyToNat v > doc.numUpdates then .verErr
          else .proceed (some (pyToNat v))
        | _ => .help

/-- Embeds the prelude of `do_encode_strings` (lines 1072-1105, 1157-1159). -/
def encodeStringsPrelude (pdfFile : Option PDFDoc)
    (args : Option (List String)) : CmdPrelude :=
  match pdfFile with
  | none => .mustOpen
  | some doc =>
    match args with
    | none => .parseErr
    | some [] => .proceed none
    | some argl =>
      if argl.length = 1 ∨ argl.length = 2 then
        let i := argl.headD ""
        let version := if argl.length = 2 then some (argl.getD 1 "") else none
        if (¬ pyIsDigit i ∧ i ≠ "trailer") ∨
            (version.isSome ∧ ¬ pyIsDigit (version.getD "")) then .help
        else
          match version with
          | none => .proceed none
          | some v =>
            if pyToNat v > doc.numUpdates then .verErr
            else .proceed (some (pyToNat v))
      else .help

/-- Embeds the prelude of `do_metadata` (lines 2938-2964). -/
def metadataPrelude (pdfFile : Option PDFDoc) (args : Option (List String)) :
    CmdPrelude :=
  match pdfFile with
  | none => .mustOpen
  | some doc =>
    match args with
    | none => .parseErr
    | some [] => .proceed none
    | some [v] =>
      if ¬ pyIsDigit v then .help
      else if pyToNat v > doc.numUpdates then .verErr
      else .proceed (some (pyToNat v))
    | some _ => .help

/-- Embeds the prelude of `do_modify` (lines 3002-3053).  The command has no
`pdfFile is None` guard, so with no open document the version check at line
3048 raises `AttributeError` (`crash`).  `fileExists` is the `os.path.exists`
oracle used to disambiguate the third argument. -/
def modifyPrelude (pdfFile : Option PDFDoc) (fileExists : String → Bool)
    (args : Option (List String)) : CmdPrelude :=
  match args with
  | none => .parseErr
  | some argl =>
    if argl.length < 2 then .help
    else if argl.headD "" ∉ ["object", "stream"] then .help
    else
      let i := argl.getD 1 ""
      let step : Except CmdPrelude (Option String) :=
        if argl.length = 2 then .ok none
        else if argl.length = 3 then
          if ¬ fileExists (argl.getD 2 "") then .ok (some (argl.getD 2 ""))
          else .ok none
        else if argl.length = 4 then
          if ¬ fileExists (argl.getD 3 "") then .error .fileErr
          else .ok (some (argl.getD 2 ""))
        else .error .help
      match step with
      | .error e => e
      | .ok version =>
        if (¬ pyIsDigit i ∧ i ≠ "trailer" ∧ i ≠ "xref") ∨
            (version.isSome ∧ ¬ pyIsDigit (version.getD "")) then .help
        else
          match version with
          | none => .proceed none
          | some v =>
            match pdfFile with
            | none => .crash
            | some doc =>
              if pyToNat v > doc.numUpdates then .verErr
              else .proceed (some (pyToNat v))

/-- Embeds the prelude of `do_object` (lines 3103-3131). -/
def objectPrelude (pdfFile : Option PDFDoc) (args : Option (List String)) :
    CmdPrelude :=
  match pdfFile with
  | none => .mustOpen
  | some doc =>
    match args with
    | none => .parseErr
    | some [i] =>
      if ¬ pyIsDigit i then .help else .proceed none
    | some [i, v] =>
      if ¬ pyIsDigit i ∨ ¬ pyIsDigit v then .help
      else if pyToNat v > doc.numUpdates then .verErr
      else .proceed (some (pyToNat v))
    | some _ => .help

/-- Embeds the prelude of `do_offsets` (lines 3172-3201). -/
def offsetsPrelude (pdfFile : Option PDFDoc) (args : Option (List String)) :
    CmdPrelude :=
  match pdfFile with
  | none => .mustOpen
  | some doc =>
    match args with
    | none => .parseErr
    | some [] => .proceed none
    | some [v] =>
      if ¬ pyIsDigit v then .help
      else if pyToNat v > doc.numUpdates then .verErr
      else .proceed (some (pyToNat v))
    | some _ => .help

/-- Embeds the prelude of `do_references` (lines 3454-3487). -/
def referencesPrelude (pdfFile : Option PDFDoc) (args : Option (List String)) :
    CmdPrelude :=
  match pdfFile with
  | none => .mustOpen
  | some doc =>
    match args with
    | none => .parseErr
    | some [cmd, i] =>
      if ¬ pyIsDigit i ∨ (pyLower cmd ≠ "to" ∧ pyLower cmd ≠ "in") then .help
      else .proceed none
    | some [cmd, i, v] =>
      if ¬ pyIsDigit i ∨ ¬ pyIsDigit v ∨
          (pyLower cmd ≠ "to" ∧ pyLower cmd ≠ "in") then .help
      else if pyToNat v > doc.numUpdates then .verErr
      else .proceed (some (pyToNat v))
    | some _ => .help

/-- Embeds the prelude of `do_save_version` (lines 3648-3670); with the
version parsed from digits the `version < 0` half of the line-3666 test
cannot fire, so only the upper bound is represented. -/
def saveVersionPrelude (pdfFile : Option PDFDoc) (args : Option (List String)) :
    CmdPrelude :=
  match pdfFile with
  | none => .mustOpen
  | some doc =>
    match args with
    | none => .parseErr
    | some [v, _fileName] =>
      if ¬ pyIsDigit v then .help
      else if pyToNat v > doc.numUpdates then .verErr
      else .proceed (some (pyToNat v))
    | some _ => .help

/-- C3: in every version-taking command, a digit version argument greater
than the document's number of updates stops the command with the
"version number is not valid" error before the underlying document
operation, and a non-numeric version argument is rejected with the
command's help (for `filters`, where a non-numeric second argument is
instead read as a filter alias, with the help failure when it is not a
valid alias) before any document access. -/
theorem version_arg_validated (doc : PDFDoc) (fe : String → Bool)
    (i v : String) (hi : pyIsDigit i = true) :
    (pyIsDigit v = true → pyToNat v > doc.numUpdates →
      changelogPrelude (some doc) (some [v]) = .verErr ∧
      createObjectStreamPrelude (some doc) (some ["object_stream", v]) = .verErr ∧
      encodeStringsPrelude (some doc) (some [i, v]) = .verErr ∧
      metadataPrelude (some doc) (some [v]) = .verErr ∧
      (fe v = false → modifyPrelude (some doc) fe (some ["object", i, v]) = .verErr) ∧
      objectPrelude (some doc) (some [i, v]) = .verErr ∧
      offsetsPrelude (some doc) (some [v]) = .verErr ∧
      (∀ fargs, (∀ f ∈ fargs,
          pyLower f ∈ validSetFilters ∧ pyLower f ∉ notImplementedFiltersSet) →
        doFilters (some doc) (some (i :: v :: fargs)) = .verErr) ∧
      referencesPrelude (some doc) (some ["to", i, v]) = .verErr ∧
      saveVersionPrelude (some doc) (some [v, "out.pdf"]) = .verErr) ∧
    (pyIsDigit v = false →
      changelogPrelude (some doc) (some [v]) = .help ∧
      createObjectStreamPrelude (some doc) (some ["object_stream", v]) = .help ∧
      encodeStringsPrelude (some doc) (some [i, v]) = .help ∧
      metadataPrelude (some doc) (some [v]) = .help ∧
      (fe v = false → modifyPrelude (some doc) fe (some ["object", i, v]) = .help) ∧
      objectPrelude (some doc) (some [i, v]) = .help ∧
      offsetsPrelude (some doc) (some [v]) = .help ∧
      (pyLower v ∉ validSetFilters →
        doFilters (some doc) (some [i, v]) = .helpFail) ∧
      referencesPrelude (some doc) (some ["to", i, v]) = .help ∧
      saveVersionPrelude (some doc) (some [v, "out.pdf"]) = .help) := by
  constructor
  · intro hv hgt
    refine ⟨?_, ?_, ?_, ?_, ?_, ?_, ?_, ?_, ?_, ?_⟩
    · simp [changelogPrelude, hv, hgt]
    · simp [createObjectStreamPrelude, hv, hgt]
    · simp [encodeStringsPrelude, hi, hv, hgt]
    · simp [metadataPrelude, hv, hgt]
    · intro hfe
      simp [modifyPrelude, hi, hv, hgt, hfe]
    · simp [objectPrelude, hi, hv, hgt]
    · simp [offsetsPrelude, hv, hgt]
    · intro fargs hvalid
      have hcoll := collectSetFilters_ok fargs hvalid
      unfold doFilters
      simp [hv, hcoll, hi, hgt]
    · have hto : pyLower "to" = "to" := by decide
      simp [referencesPrelude, hi, hv, hgt, hto]
    · simp [saveVersionPrelude, hv, hgt]
  · intro hv
    refine ⟨?_, ?_, ?_, ?_, ?_, ?_, ?_, ?_, ?_, ?_⟩
    · simp [changelogPrelude, hv]
    · simp [createObjectStreamPrelude, hv]
    · simp [encodeStringsPrelude, hi, hv]
    · simp [metadataPrelude, hv]
    · intro hfe
      simp [modifyPrelude, hi, hv, hfe]
    · simp [objectPrelude, hi, hv]
    · simp [offsetsPrelude, hv]
    · intro hval
      unfold doFilters
      unfold collectSetFilters
      simp [hv, hval]
    · have hto : pyLower "to" = "to" := by decide
      simp [referencesPrelude, hi, hv, hto]
    · simp [saveVersionPrelude, hv]

theorem version_arg_validated_witness :
    changelogPrelude (some demoDoc) (some ["9"]) = .verErr ∧
    modifyPrelude (some demoDoc) (fun _ => false) (some ["object", "1", "9"]) = .verErr ∧
    doFilters (some demoDoc) (some ["1", "9", "fl"]) = .verErr ∧
    saveVersionPrelude (some demoDoc) (some ["x", "out.pdf"]) = .help := by
  refine ⟨?_, ?_, ?_, ?_⟩
  · exact ((version_arg_validated demoDoc (fun _ => false) "1" "9"
      (by decide)).1 (by decide) (by decide)).1
  · exact ((version_arg_validated demoDoc (fun _ => false) "1" "9"
      (by decide)).1 (by decide) (by decide)).2.2.2.2.1 (by decide)
  · exact ((version_arg_validated demoDoc (fun _ => false) "1" "9"
      (by decide)).1 (by decide) (by decide)).2.2.2.2.2.2.2.1 ["fl"] (by decide)
  · exact ((version_arg_validated demoDoc (fun _ => false) "1" "x"
      (by decide)).2 (by decide)).2.2.2.2.2.2.2.2.2

/-! ## The `malformed_output` command (`do_malformed_output`, lines
2884-2923, claim C4) -/

/-- Outcomes of `do_malformed_output`: parse failure, the help-and-fail
path, or the pair stored into the console variables `malformed_options`
and `header_file`. -/
inductive MalformedOut where
  | parseErr
  | helpFail
  | stored (opts : List Nat) (hf : Option String)
  deriving Repr, DecidableEq

/-- The option loop of `do_malformed_output` (lines 2895-2919): digits below
7 are collected (0 resets both accumulators and breaks; an option already
present, or any option once 1 is present, is ignored); a digit above 6 or a
non-digit naming no existing file fails with the help text (`none`); a
non-digit naming an existing file becomes the header file and breaks. -/
def malformedLoop (fileExists : String → Bool) (args : List String)
    (opts : List Nat) (hf : Option String) :
    Option (List Nat × Option String) :=
  match args with
  | [] => some (opts, hf)
  | a :: rest =>
    if pyIsDigit a then
      let o := pyToNat a
      if o < 7 then
        if o = 0 then some ([], none)
        else
          if o ∉ opts ∧ 1 ∉ opts then
            malformedLoop fileExists rest (opts ++ [o]) hf
          else malformedLoop fileExists rest opts hf
      else none
    else
      if fileExists a then some (opts, some a)
      else none

/-- Embeds `do_malformed_output` (lines 2884-2923). -/
def doMalformedOutput (fileExists : String → Bool)
    (args : Option (List String)) : MalformedOut :=
  match args with
  | none => .parseErr
  | some [] => .stored [1] none
  | some argl =>
    match malformedLoop fileExists argl [] none with
    | none => .helpFail
    | some (opts, hf) => .stored opts hf

/-- Distinct fresh options in range are appended in order. -/
theorem malformedLoop_appends (fe : String → Bool) (args : List String) :
    ∀ opts, (∀ a ∈ args, pyIsDigit a = true ∧ 2 ≤ pyToNat a ∧ pyToNat a ≤ 6) →
      (args.map pyToNat).Nodup →
      (∀ a ∈ args, pyToNat a ∉ opts) → 1 ∉ opts →
      malformedLoop fe args opts none = some (opts ++ args.map pyToNat, none) := by
  induction args with
  | nil => intro opts _ _ _ _; simp [malformedLoop]
  | cons a rest ih =>
    intro opts hrange hnd hfresh h1
    obtain ⟨hda, h2a, h6a⟩ := hrange a (by simp)
    have hnd2 : (∀ x ∈ rest, ¬ pyToNat x = pyToNat a) ∧
        (List.map pyToNat rest).Nodup := by simpa using hnd
    rw [malformedLoop]
    rw [if_pos hda, if_pos (show pyToNat a < 7 by omega),
      if_neg (show ¬ pyToNat a = 0 by omega),
      if_pos (show pyToNat a ∉ opts ∧ 1 ∉ opts from ⟨hfresh a (by simp), h1⟩)]
    rw [ih (opts ++ [pyToNat a])
      (fun b hb => hrange b (by simp [hb]))
      hnd2.2
      ?_ (by simp [h1]; omega)]
    · simp
    · intro b hb
      simp only [List.mem_append, List.mem_singleton]
      push_neg
      exact ⟨hfresh b (by simp [hb]), hnd2.1 b hb⟩

/-- A digit `0` anywhere after a run of in-range digits resets both
accumulators. -/
theorem malformedLoop_zero_resets (fe : String → Bool) (pre : List String) :
    ∀ opts hf, (∀ a ∈ pre, pyIsDigit a = true ∧ pyToNat a < 7) →
      ∀ rest, malformedLoop fe (pre ++ "0" :: rest) opts hf = some ([], none) := by
  induction pre with
  | nil =>
    intro opts hf _ rest
    rw [List.nil_append, malformedLoop]
    rw [if_pos (show pyIsDigit "0" = true from by decide),
      if_pos (show pyToNat "0" < 7 from by decide),
      if_pos (show pyToNat "0" = 0 from by decide)]
  | cons a pre ih =>
    intro opts hf hrange rest
    obtain ⟨hda, h7a⟩ := hrange a (by simp)
    rw [List.cons_append, malformedLoop, if_pos hda, if_pos h7a]
    by_cases h0 : pyToNat a = 0
    · rw [if_pos h0]
    · rw [if_neg h0]
      split
      · exact ih _ _ (fun b hb => hrange b (by simp [hb])) rest
      · exact ih _ _ (fun b hb => hrange b (by simp [hb])) rest

/-- Once `1` is among the stored options, every further in-range non-zero
option is ignored. -/
theorem malformedLoop_one_absorbs (fe : String → Bool) (rest : List String) :
    ∀ opts hf,
      (∀ a ∈ rest, pyIsDigit a = true ∧ 1 ≤ pyToNat a ∧ pyToNat a < 7) →
      1 ∈ opts → malformedLoop fe rest opts hf = some (opts, hf) := by
  induction rest with
  | nil => intro opts hf _ _; simp [malformedLoop]
  | cons a rest ih =>
    intro opts hf hrange h1
    obtain ⟨hda, h1a, h7a⟩ := hrange a (by simp)
    rw [malformedLoop, if_pos hda, if_pos h7a, if_neg (by omega),
      if_neg (by simp [h1]),
      ih opts hf (fun b hb => hrange b (by simp [hb])) h1]

/-- An out-of-range digit after a run of in-range non-zero digits fails the
whole command. -/
theorem malformedLoop_overflow_fails (fe : String → Bool) (pre : List String) :
    ∀ opts hf b rest,
      (∀ a ∈ pre, pyIsDigit a = true ∧ 1 ≤ pyToNat a ∧ pyToNat a < 7) →
      pyIsDigit b = true → 6 < pyToNat b →
      malformedLoop fe (pre ++ b :: rest) opts hf = none := by
  induction pre with
  | nil =>
    intro opts hf b rest _ hdb h6b
    rw [List.nil_append, malformedLoop, if_pos hdb, if_neg (by omega)]
  | cons a pre ih =>
    intro opts hf b rest hrange hdb h6b
    obtain ⟨hda, h1a, h7a⟩ := hrange a (by simp)
    rw [List.cons_append, malformedLoop, if_pos hda, if_pos h7a,
      if_neg (by omega)]
    split
    · exact ih _ _ b rest (fun c hc => hrange c (by simp [hc])) hdb h6b
    · exact ih _ _ b rest (fun c hc => hrange c (by simp [hc])) hdb h6b

/-- C4: distinct numeric options between 2 and 6 are stored exactly and in
order with no header file; a `0` option (even after other valid options)
resets the stored options to the empty list and clears the header file;
no arguments at all stores exactly the select-all option `1`; once option
`1` is given first, every individually listed in-range option after it is
ignored; and a numeric option above 6 fails the command without storing
anything. -/
theorem malformed_options_stored_as_claimed (fe : String → Bool) :
    (∀ args, args ≠ [] →
      (∀ a ∈ args, pyIsDigit a = true ∧ 2 ≤ pyToNat a ∧ pyToNat a ≤ 6) →
      (args.map pyToNat).Nodup →
      doMalformedOutput fe (some args) = .stored (args.map pyToNat) none) ∧
    (∀ pre rest,
      (∀ a ∈ pre, pyIsDigit a = true ∧ pyToNat a < 7) →
      doMalformedOutput fe (some (pre ++ "0" :: rest)) = .stored [] none) ∧
    (doMalformedOutput fe (some []) = .stored [1] none) ∧
    (∀ rest,
      (∀ a ∈ rest, pyIsDigit a = true ∧ 1 ≤ pyToNat a ∧ pyToNat a < 7) →
      doMalformedOutput fe (some ("1" :: rest)) = .stored [1] none) ∧
    (∀ pre b rest,
      (∀ a ∈ pre, pyIsDigit a = true ∧ 1 ≤ pyToNat a ∧ pyToNat a < 7) →
      pyIsDigit b = true → 6 < pyToNat b →
      doMalformedOutput fe (some (pre ++ b :: rest)) = .helpFail) := by
  refine ⟨?_, ?_, rfl, ?_, ?_⟩
  · intro args hne hrange hnd
    have h := malformedLoop_appends fe args [] hrange hnd
      (by intro a _; exact List.not_mem_nil _) (List.not_mem_nil _)
    cases args with
    | nil => exact absurd rfl hne
    | cons a tl =>
      simp only [doMalformedOutput]
      rw [h]
      simp
  · intro pre rest hrange
    have h := malformedLoop_zero_resets fe pre [] none hrange rest
    obtain ⟨a, tl, hpre⟩ : ∃ a tl, pre ++ "0" :: rest = a :: tl := by
      cases pre <;> exact ⟨_, _, rfl⟩
    rw [hpre] at h ⊢
    simp only [doMalformedOutput]
    rw [h]
  · intro rest hrange
    simp only [doMalformedOutput]
    rw [malformedLoop]
    rw [if_pos (show pyIsDigit "1" = true from by decide),
      if_pos (show pyToNat "1" < 7 from by decide),
      if_neg (show ¬ pyToNat "1" = 0 from by decide),
      if_pos (show pyToNat "1" ∉ ([] : List Nat) ∧ 1 ∉ ([] : List Nat)
        from by simp)]
    rw [show ([] : List Nat) ++ [pyToNat "1"] = [1] from by decide]
    rw [malformedLoop_one_absorbs fe rest [1] none hrange (by simp)]
  · intro pre b rest hrange hdb h6b
    have h := malformedLoop_overflow_fails fe pre [] none b rest hrange hdb h6b
    obtain ⟨a, tl, hpre⟩ : ∃ a tl, pre ++ b :: rest = a :: tl := by
      cases pre <;> exact ⟨_, _, rfl⟩
    rw [hpre] at h ⊢
    simp only [doMalformedOutput]
    rw [h]

theorem malformed_options_stored_as_claimed_witness :
    doMalformedOutput (fun _ => false) (some ["2", "5", "3"]) =
      .stored [2, 5, 3] none ∧
    doMalformedOutput (fun _ => false) (some ["2", "0"]) = .stored [] none ∧
    doMalformedOutput (fun _ => false) (some []) = .stored [1] none ∧
    doMalformedOutput (fun _ => false) (some ["1", "4"]) = .stored [1] none ∧
    doMalformedOutput (fun _ => false) (some ["2", "7"]) = .helpFail := by
  have h := malformed_options_stored_as_claimed (fun _ => false)
  refine ⟨?_, ?_, h.2.2.1, ?_, ?_⟩
  · exact h.1 ["2", "5", "3"] (by decide) (by decide) (by decide)
  · exact h.2.1 ["2"] [] (by decide)
  · exact h.2.2.2.1 ["4"] (by decide)
  · exact h.2.2.2.2 ["2"] "7" [] (by decide) (by decide) (by decide)

/-! ## The `replace` command (`do_replace`, lines 3503-3567, claim C7) -/

/-- First index of `needle` in the character list, Python `find` style. -/
def occurIdx (needle : List Char) : List Char → Option Nat
  | [] => if needle.isPrefixOf [] then some 0 else none
  | h :: t =>
    if needle.isPrefixOf (h :: t) then some 0
    else (occurIdx needle t).map (· + 1)

/-- Python `str.find`: first occurrence index, `-1` if absent. -/
def strFind (s t : String) : Int :=
  match occurIdx t.toList s.toList with
  | some i => (i : Int)
  | none => -1

/-- Python `str.replace`: replace every non-overlapping occurrence left to
right; an empty search string inserts the replacement before every
character and at the end. -/
def replaceChars (needle repl : List Char) : List Char → List Char
  | [] => if needle = [] then repl else []
  | h :: t =>
    if needle = [] then repl ++ h :: replaceChars needle repl t
    else if needle.isPrefixOf (h :: t) then
      repl ++ replaceChars needle repl ((h :: t).drop needle.length)
    else h :: replaceChars needle repl t
termination_by hay => hay.length
decreasing_by
  all_goals
    (first
      | (simp; done)
      | (rename_i hne _
         have h1 : 1 ≤ needle.length := by
           cases needle with
           | nil => exact absurd rfl hne
           | cons c cs => simp
         simp [List.length_drop]
         omega))

def pyReplaceStr (s t r : String) : String :=
  ⟨replaceChars t.toList r.toList s.toList⟩

/-- A Python 3 value as seen by `do_replace`: command arguments and console
variables are `str`, a file opened in mode `"rb"` reads `bytes`. -/
inductive PyVal where
  | str (s : String)
  | bytes (s : String)
  deriving Repr, DecidableEq

/-- Python 3 `find` with its type rules: `bytes.find` does not accept `str`
(and vice versa) and raises `TypeError`.  The exact exception text is
abbreviated. -/
def pyFind : PyVal → PyVal → Except String Int
  | .str s, .str t => .ok (strFind s t)
  | .bytes s, .bytes t => .ok (strFind s t)
  | .bytes _, .str _ =>
    .error "TypeError: argument should be integer or bytes-like object, not str"
  | .str _, .bytes _ => .error "TypeError: must be str, not bytes"

/-- Python 3 `replace` with its type rules. -/
def pyReplacePy : PyVal → PyVal → PyVal → Except String PyVal
  | .str s, .str t, .str r => .ok (.str (pyReplaceStr s t r))
  | .bytes s, .bytes t, .bytes r => .ok (.bytes (pyReplaceStr s t r))
  | .bytes _, _, _ => .error "TypeError: a bytes-like object is required"
  | .str _, _, _ => .error "TypeError: replace argument must be str"

/-- `self.variables[k][0]` for a string-valued console variable. -/
def varsGet (consoleVars : List (String × String)) (k : String) :
    Option String :=
  (consoleVars.find? (fun p => p.1 = k)).map Prod.snd

/-- `self.variables[k][0] = v` for an existing key: in-place update. -/
def varsSetCur (consoleVars : List (String × String)) (k v : String) :
    List (String × String) :=
  consoleVars.map (fun p => if p.1 = k then (k, v) else p)

inductive ReplaceOut where
  | parseErr
  | help
  | mustOpen
  | fileNotExist
  | writeErr
  | crash (exc : String)
  | report (m : String)
  deriving Repr, DecidableEq

/-- Result of `do_replace`: the reported outcome, the console variables
afterwards, and the file write performed, if any. -/
structure ReplaceRes where
  out : ReplaceOut
  vars : List (String × String)
  fileWrite : Option (String × String)
  deriving Repr, DecidableEq

/-- Embeds `do_replace` (lines 3503-3567).  `pdfReplaceRet` is the status
pair of `pdfFile.replace` when a document is open; `fileContent` is the
`os.path.exists`/`open(src, "rb").read()` oracle (`none` when the file does
not exist); `writeOk` tells whether the `open(src, "wb").write` call
succeeds. -/
def doReplace (pdfReplaceRet : Option (Int × String))
    (fileContent : String → Option String) (writeOk : String → Bool)
    (consoleVars : List (String × String)) (args : Option (List String)) :
    ReplaceRes :=
  let keep : ReplaceOut → ReplaceRes :=
    fun o => ⟨o, consoleVars, none⟩
  match args with
  | none => keep .parseErr
  | some argl =>
    if argl.length = 3 then
      let srcType := argl.headD ""
      if srcType ≠ "all" then keep .help
      else
        match pdfReplaceRet with
        | none => keep .mustOpen
        | some ret =>
          if ret.1 = -1 then
            if ret.2 = "String not found" then keep (.report "String not found")
            else keep (.report "[!] Error: The string has not been replaced")
          else keep (.report "[+] The string has been replaced correctly")
    else if argl.length = 4 then
      let srcType := argl.headD ""
      if srcType ≠ "variable" ∧ srcType ≠ "file" then keep .help
      else
        let src := argl.getD 1 ""
        let string1 := argl.getD 2 ""
        let string2 := argl.getD 3 ""
        if srcType = "file" then
          match fileContent src with
          | none => keep .fileNotExist
          | some content =>
            match pyFind (.bytes content) (.str string1) with
            | .error e => keep (.crash e)
            | .ok idx =>
              if idx ≠ -1 then
                match pyReplacePy (.bytes content) (.str string1) (.str string2) with
                | .error e => keep (.crash e)
                | .ok (.bytes newContent) =>
                  if writeOk src then
                    ⟨.report "[+] The string has been replaced correctly",
                      consoleVars, some (src, newContent)⟩
                  else keep .writeErr
                | .ok (.str newContent) =>
                  if writeOk src then
                    ⟨.report "[+] The string has been replaced correctly",
                      consoleVars, some (src, newContent)⟩
                  else keep .writeErr
              else keep (.report "String not found")
        else
          match varsGet consoleVars src with
          | none => keep (.report "[!] Error: The variable does not exist")
          | some cur =>
            if strFind cur string1 ≠ -1 then
              ⟨.report "[+] The string has been replaced correctly",
                varsSetCur consoleVars src (pyReplaceStr cur string1 string2),
                none⟩
            else keep (.report "String not found")
    else keep .help

/-- C7: what `do_replace` actually does.  On a console variable the claim's
all-or-nothing contract holds: a found search string replaces every
occurrence, stores the result back and reports success, an absent one
leaves the variables unchanged and reports "String not found"; `replace
all` delegates to the document and reports its status.  But on a `file`
source the claim fails: the content is read as `bytes` while the search
string is `str`, so `content.find(string1)` raises an uncaught `TypeError`
for **every** existing file and no substitution or report ever happens. -/
theorem replace_behaviour
    (pr : Option (Int × String)) (fc : String → Option String)
    (wOk : String → Bool) (vars : List (String × String))
    (src s1 s2 : String) :
    (∀ c, fc src = some c →
      doReplace pr fc wOk vars (some ["file", src, s1, s2]) =
        ⟨.crash "TypeError: argument should be integer or bytes-like object, not str",
          vars, none⟩) ∧
    (∀ cur, varsGet vars src = some cur → strFind cur s1 ≠ -1 →
      doReplace pr fc wOk vars (some ["variable", src, s1, s2]) =
        ⟨.report "[+] The string has been replaced correctly",
          varsSetCur vars src (pyReplaceStr cur s1 s2), none⟩) ∧
    (∀ cur, varsGet vars src = some cur → strFind cur s1 = -1 →
      doReplace pr fc wOk vars (some ["variable", src, s1, s2]) =
        ⟨.report "String not found", vars, none⟩) ∧
    (∀ ret, doReplace (some ret) fc wOk vars (some ["all", s1, s2]) =
      ⟨if ret.1 = -1 then
          if ret.2 = "String not found" then .report "String not found"
          else .report "[!] Error: The string has not been replaced"
        else .report "[+] The string has been replaced correctly",
        vars, none⟩) := by
  refine ⟨?_, ?_, ?_, ?_⟩
  · intro c hfc
    simp [doReplace, hfc, pyFind]
  · intro cur hvg hfind
    simp [doReplace, hvg, hfind]
  · intro cur hvg hfind
    simp [doReplace, hvg, hfind]
  · intro ret
    by_cases h1 : ret.1 = -1
    · by_cases h2 : ret.2 = "String not found"
      · simp [doReplace, h1, h2]
      · simp [doReplace, h1, h2]
    · simp [doReplace, h1]

theorem replace_behaviour_witness :
    doReplace none (fun _ => some "BYTES") (fun _ => true) [("foo", "abcab")]
        (some ["file", "f", "a", "b"]) =
      ⟨.crash "TypeError: argument should be integer or bytes-like object, not str",
        [("foo", "abcab")], none⟩ ∧
    doReplace none (fun _ => none) (fun _ => true) [("foo", "abcab")]
        (some ["variable", "foo", "ab", "X"]) =
      ⟨.report "[+] The string has been replaced correctly",
        varsSetCur [("foo", "abcab")] "foo" (pyReplaceStr "abcab" "ab" "X"),
        none⟩ ∧
    doReplace none (fun _ => none) (fun _ => true) [("foo", "abcab")]
        (some ["variable", "foo", "zz", "X"]) =
      ⟨.report "String not found", [("foo", "abcab")], none⟩ ∧
    doReplace (some (-1, "String not found")) (fun _ => none) (fun _ => true)
        [("foo", "abcab")] (some ["all", "x", "y"]) =
      ⟨.report "String not found", [("foo", "abcab")], none⟩ := by
  refine ⟨?_, ?_, ?_, ?_⟩
  · exact (replace_behaviour none (fun _ => some "BYTES") (fun _ => true)
      [("foo", "abcab")] "f" "a" "b").1 "BYTES" rfl
  · exact (replace_behaviour none (fun _ => none) (fun _ => true)
      [("foo", "abcab")] "foo" "ab" "X").2.1 "abcab" rfl (by decide)
  · exact (replace_behaviour none (fun _ => none) (fun _ => true)
      [("foo", "abcab")] "foo" "zz" "X").2.2.1 "abcab" rfl (by decide)
  · exact ((replace_behaviour none (fun _ => none) (fun _ => true)
      [("foo", "abcab")] "" "x" "y").2.2.2 (-1, "String not found")).trans
      (by norm_num)

/-! ## The `open` command (`do_open`, lines 3250-3299, claim C8) -/

inductive OpenOut where
  | parseErr
  | help
  | fileErr
  | opened
  | openFailed
  deriving Repr, DecidableEq

/-- Embeds `do_open` (lines 3250-3299).  `parseRet` is the
`PDFParser().parse(fileName, forceMode, looseMode)` oracle, `none`
standing for the failure value `-1` and `some doc` for `(0, doc)`.  The
previously opened document is deleted before parsing (line 3285), so the
resulting document depends only on the parse outcome. -/
def doOpen (fileExists : String → Bool)
    (parseRet : String → Bool → Bool → Option PDFDoc)
    (pdfFile : Option PDFDoc) (args : Option (List String)) :
    OpenOut × Option PDFDoc :=
  match args with
  | none => (.parseErr, pdfFile)
  | some argl =>
    let step : Except OpenOut (String × Bool × Bool) :=
      if argl.length = 1 then .ok (argl.headD "", false, false)
      else if argl.length = 2 then
        let flags := argl.headD ""
        let fileName := argl.getD 1 ""
        if flags.length < 2 ∨ flags.length > 3 ∨
            flags.toList.headD ' ' ≠ '-' ∨
            (flags.drop 1) ∉ ["f", "l", "fl", "lf"] then .error .help
        else
          .ok (fileName, strFind flags "f" ≠ -1, strFind flags "l" ≠ -1)
      else .error .help
    match step with
    | .error e => (e, pdfFile)
    | .ok (fileName, forceMode, looseMode) =>
      if ¬ fileExists fileName then (.fileErr, pdfFile)
      else
        match parseRet fileName forceMode looseMode with
        | some doc => (.opened, some doc)
        | none => (.openFailed, none)

/-- C8 counterexample: `modify` operates on the document but, alone among
the document commands, has no `pdfFile is None` guard; invoked with no open
document (and a version argument) it reaches
`self.pdfFile.getNumUpdates()` on `None` and raises `AttributeError`
instead of reporting "You must open a file". -/
theorem modify_crashes_without_open_file :
    modifyPrelude none (fun _ => false) (some ["object", "1", "2"]) =
        .crash ∧
      CmdPrelude.crash ≠ CmdPrelude.mustOpen := by
  constructor
  · decide
  · decide

/-- C8 (amended): a failed open does leave the console with no usable
document — after `open` the stored document is exactly the parse result
whatever was open before (the old document is discarded), and a parse
failure stores `None`; every version-taking document command **except**
`modify` then reports "You must open a file", while `modify` raises
`AttributeError` when it reaches its version check. -/
theorem open_failure_leaves_no_document :
    (∀ fe pr (old : Option PDFDoc) fn, fe fn = true →
      doOpen fe pr old (some [fn]) =
        (if (pr fn false false).isSome then .opened else .openFailed,
          pr fn false false)) ∧
    (∀ fe pr (old : Option PDFDoc) fn, fe fn = true →
      pr fn false false = none →
      doOpen fe pr old (some [fn]) = (.openFailed, none)) ∧
    (∀ args, changelogPrelude none args = .mustOpen) ∧
    (∀ args v, createObjectStreamPrelude none (some (["object_stream", v] ++ args)) = .mustOpen) ∧
    (∀ args, encodeStringsPrelude none args = .mustOpen) ∧
    (∀ args, metadataPrelude none args = .mustOpen) ∧
    (∀ args, objectPrelude none args = .mustOpen) ∧
    (∀ args, offsetsPrelude none args = .mustOpen) ∧
    (∀ args, doFilters none args = .mustOpen) ∧
    (∀ args, referencesPrelude none args = .mustOpen) ∧
    (∀ args, saveVersionPrelude none args = .mustOpen) ∧
    (∀ fe i v, pyIsDigit i = true → pyIsDigit v = true → fe v = false →
      modifyPrelude none fe (some ["object", i, v]) = .crash) := by
  refine ⟨?_, ?_, fun _ => rfl, ?_, fun _ => rfl, fun _ => rfl, fun _ => rfl,
    fun _ => rfl, fun _ => rfl, fun _ => rfl, fun _ => rfl, ?_⟩
  · intro fe pr old fn hfe
    simp only [doOpen, List.length_cons, List.length_nil, List.headD_cons]
    norm_num
    rw [if_neg (by simp [hfe])]
    cases hpr : pr fn false false <;> simp [hpr]
  · intro fe pr old fn hfe hpr
    simp only [doOpen, List.length_cons, List.length_nil, List.headD_cons]
    norm_num
    rw [if_neg (by simp [hfe]), hpr]
  · intro args v
    rfl
  · intro fe i v hi hv hfe
    simp [modifyPrelude, hi, hv, hfe]

theorem open_failure_leaves_no_document_witness :
    doOpen (fun _ => true) (fun _ _ _ => none) (some demoDoc) (some ["a.pdf"]) =
        (.openFailed, none) ∧
    modifyPrelude none (fun _ => false) (some ["object", "2", "3"]) = .crash :=
  ⟨open_failure_leaves_no_document.2.1 (fun _ => true) (fun _ _ _ => none)
      (some demoDoc) "a.pdf" rfl rfl,
    open_failure_leaves_no_document.2.2.2.2.2.2.2.2.2.2.2 (fun _ => false)
      "2" "3" (by decide) (by decide) rfl⟩

/-! ## Variables, redirection and `set` (claim C10)

Console variable values are modelled by their string rendering; each
variable holds a pair (current value, default value) as in
`self.variables = {name: [value, value]}`. -/

/-- `self.variables` right after `__init__` (lines 169-174), values
rendered as strings. -/
def initVariables : List (String × (String × String)) :=
  [("output_limit", ("500", "500")),
   ("malformed_options", ("[]", "[]")),
   ("header_file", ("None", "None")),
   ("vt_key", ("", ""))]

/-- `self.readOnlyVariables` (line 176). -/
def readOnlyVariables : List String := ["malformed_options", "header_file"]

/-- `self.variables[k]`. -/
def vars2Get (consoleVars : List (String × (String × String))) (k : String) :
    Option (String × String) :=
  (consoleVars.find? (fun p => p.1 = k)).map Prod.snd

/-- `self.variables[k] = [v, v]`-style whole-entry assignment (insertion
ordered, overwrite in place). -/
def pyDictSetS (consoleVars : List (String × (String × String))) (k : String)
    (v : String × String) : List (String × (String × String)) :=
  if consoleVars.any (fun p => p.1 = k) then
    consoleVars.map (fun p => if p.1 = k then (k, v) else p)
  else consoleVars ++ [(k, v)]

/-- `self.variables[k][0] = v` for an existing key. -/
def varsSetCur2 (consoleVars : List (String × (String × String)))
    (k v : String) : List (String × (String × String)) :=
  consoleVars.map (fun p => if p.1 = k then (k, (v, p.2.2)) else p)

inductive SetOut where
  | parseErr
  | help
  | readOnlyErr
  | intErr
  | done
  deriving Repr, DecidableEq

/-- Embeds `do_set` (lines 3876-3922).  The no-argument display branch
leaves the variables untouched; `output_limit` is stored as `int(value)` in
the source, rendered here as the same digit string. -/
def doSet (consoleVars : List (String × (String × String)))
    (args : Option (List String)) :
    SetOut × List (String × (String × String)) :=
  match args with
  | none => (.parseErr, consoleVars)
  | some argl =>
    if argl.length ≠ 0 ∧ argl.length ≠ 2 then (.help, consoleVars)
    else if argl.length = 0 then (.done, consoleVars)
    else
      let varName := argl.headD ""
      let value := argl.getD 1 ""
      if varName ∈ readOnlyVariables then (.readOnlyErr, consoleVars)
      else if varName = "output_limit" ∧ ¬ pyIsDigit value then
        (.intErr, consoleVars)
      else if consoleVars.any (fun p => p.1 = varName) then
        (.done, varsSetCur2 consoleVars varName value)
      else (.done, consoleVars ++ [(varName, (value, value))])

inductive Redirect where
  | fileW
  | fileA
  | varW
  | varA
  deriving Repr, DecidableEq

/-- The redirect-extraction tail of `parseArgs` (lines 5079-5127), on the
already-tokenised argument array: a penultimate `>`/`>>`/`$>`/`$>>` token
consumes the last two tokens, a last token starting with one of them
consumes one, and the rest of the array is returned as the command's
arguments. -/
def parseRedirect (argsArray : List String) :
    List String × Option (Redirect × String) :=
  let single : List String → List String × Option (Redirect × String) :=
    fun arr =>
      let last := arr.getLastD ""
      if last.take 2 = ">>" ∧ last.length > 2 then
        (arr.dropLast, some (.fileA, last.drop 2))
      else if last.take 1 = ">" ∧ last.length > 1 then
        (arr.dropLast, some (.fileW, last.drop 1))
      else if last.take 3 = "$>>" ∧ last.length > 3 then
        (arr.dropLast, some (.varA, last.drop 3))
      else if last.take 2 = "$>" ∧ last.length > 2 then
        (arr.dropLast, some (.varW, last.drop 2))
      else (arr, none)
  if argsArray.length > 1 then
    let penult := argsArray.getD (argsArray.length - 2) ""
    let last := argsArray.getLastD ""
    if penult = ">" then (argsArray.dropLast.dropLast, some (.fileW, last))
    else if penult = ">>" then (argsArray.dropLast.dropLast, some (.fileA, last))
    else if penult = "$>" then (argsArray.dropLast.dropLast, some (.varW, last))
    else if penult = "$>>" then (argsArray.dropLast.dropLast, some (.varA, last))
    else single argsArray
  else if argsArray.length > 0 then single argsArray
  else (argsArray, none)

/-- One `VAR_WRITE`/`VAR_ADD` step of `log_output` (lines 4808-4820): item
`i` goes to `varName` for `i = 0` and to `varName_i` afterwards. -/
def varWriteList (varAdd : Bool)
    (consoleVars : List (String × (String × String))) (varName : String) :
    Nat → List String → List (String × (String × String))
  | _, [] => consoleVars
  | i, b :: rest =>
    let name := if i = 0 then varName else varName ++ "_" ++ toString i
    let consoleVars2 :=
      if varAdd then
        match vars2Get consoleVars name with
        | some cur => varsSetCur2 consoleVars name (cur.1 ++ b)
        | none => pyDictSetS consoleVars name (b, b)
      else pyDictSetS consoleVars name (b, b)
    varWriteList varAdd consoleVars2 varName (i + 1) rest

/-- The variable effect of `log_output` (lines 4791-4820): with a variable
redirection active the output (or the given raw byte list) is stored into
console variables; file redirection and plain printing leave them
unchanged.  The cosmetic `niceOutput` rewriting only changes the stored
text, not which variables are written, and is not represented. -/
def logOutputVars (consoleVars : List (String × (String × String)))
    (redirect : Option (Redirect × String)) (output : String)
    (bytesToSave : Option (List String)) :
    List (String × (String × String)) :=
  match redirect with
  | some (.varW, varName) =>
    varWriteList false consoleVars varName 0 (bytesToSave.getD [output])
  | some (.varA, varName) =>
    varWriteList true consoleVars varName 0 (bytesToSave.getD [output])
  | _ => consoleVars

/-- C10 counterexample: a `$> malformed_options` redirection appended to
any other command's line is accepted by `parseArgs` and makes that
command's `log_output` overwrite the read-only variable: here the console
starts with `malformed_options = []`, runs a command whose output is
"String not found" redirected into `malformed_options`, and ends with
`malformed_options = "String not found"` — so the variable is writable
outside `malformed_output`. -/
theorem redirect_overwrites_malformed_options :
    parseRedirect ["variable", "foo", "x", "y", "$>", "malformed_options"] =
      (["variable", "foo", "x", "y"], some (.varW, "malformed_options")) ∧
    vars2Get initVariables "malformed_options" = some ("[]", "[]") ∧
    vars2Get (logOutputVars initVariables (some (.varW, "malformed_options"))
        "String not found" none) "malformed_options" =
      some ("String not found", "String not found") := by
  refine ⟨?_, ?_, ?_⟩
  · decide
  · decide
  · decide

/-- C10 (amended): the `set` command does treat `malformed_options` and
`header_file` as read-only — naming either fails with the READ ONLY error
and leaves every console variable unchanged — and `log_output` without a
variable redirection never touches the variables; but the claim's "writable
only through `malformed_output`" does not hold, because a `$>`/`$>>`
redirection on any command writes them (see the counterexample). -/
theorem set_readonly_variables_rejected :
    (∀ consoleVars (v : String),
      doSet consoleVars (some ["malformed_options", v]) =
        (.readOnlyErr, consoleVars)) ∧
    (∀ consoleVars (v : String),
      doSet consoleVars (some ["header_file", v]) =
        (.readOnlyErr, consoleVars)) ∧
    (∀ consoleVars out b,
      logOutputVars consoleVars none out b = consoleVars) ∧
    (∀ consoleVars out b f,
      logOutputVars consoleVars (some (.fileW, f)) out b = consoleVars) ∧
    (∀ consoleVars out b f,
      logOutputVars consoleVars (some (.fileA, f)) out b = consoleVars) := by
  refine ⟨?_, ?_, ?_, ?_, ?_⟩
  · intro consoleVars v
    simp [doSet, readOnlyVariables]
  · intro consoleVars v
    simp [doSet, readOnlyVariables]
  · intro consoleVars out b
    rfl
  · intro consoleVars out b f
    rfl
  · intro consoleVars out b f
    rfl

end Peepdf
